import Mathlib

/-!
Verification development for the JobKit resume/job-text engine
(`app/services/resume_helper.py` and the structured-resume schemas in
`app/schemas.py`).

Texts are shallowly embedded as `List Char`.  Python's `re` module is
modelled by a small backtracking regular-expression engine (`RE` / `run`)
whose result list is ordered by Python's backtracking priority
(alternation left first, greedy quantifiers long first, lazy quantifiers
short first), so that "the first result" coincides with the match Python
returns.  Python floats are modelled by `ℚ`; `round(x, 2)` is modelled by
round-half-to-even on rationals.  `\w`, `\s`, `\d`, `str.lower` and
`str.strip` are modelled on their ASCII behaviour, which covers every
character class the source applies them to.  Pydantic string-length
validation (`min_length`/`max_length`) is modelled by constructors
returning `Except ValErr`.
-/

namespace JobKit

abbrev Str := List Char

/-- Python `\w` (ASCII): letters, digits, underscore. -/
def isWordChar (c : Char) : Bool :=
  c.isAlpha || c.isDigit || c = '_'

/-- Python `\s` (ASCII): space, tab, newline, carriage return, form feed, vertical tab. -/
def isSpaceChar (c : Char) : Bool :=
  c = ' ' || c = '\t' || c = '\n' || c = '\r' || c = Char.ofNat 12 || c = Char.ofNat 11

/-- Python `\d`. -/
def isDigitChar (c : Char) : Bool := c.isDigit

/-- `str.lower()` (ASCII). -/
def lower (s : Str) : Str := s.map Char.toLower

/-- `str.strip()`. -/
def strip (s : Str) : Str :=
  ((s.dropWhile isSpaceChar).reverse.dropWhile isSpaceChar).reverse

/-- `str.rstrip(':')`. -/
def rstripColon (s : Str) : Str :=
  (s.reverse.dropWhile (· = ':')).reverse

/-- Python substring containment `needle in haystack`. -/
def isSubstr (pat : Str) : Str → Bool
  | [] => pat.isPrefixOf []
  | c :: cs => pat.isPrefixOf (c :: cs) || isSubstr pat cs

/-- `re.split('[..]', text)` helper: split at every separator character. -/
def splitEachGo (f : Char → Bool) : Str → Str → List Str
  | [], acc => [acc.reverse]
  | c :: cs, acc => if f c then acc.reverse :: splitEachGo f cs [] else splitEachGo f cs (c :: acc)

/-- `text.split('\n')` (single-character separator, keeps empties). -/
def splitNl (s : Str) : List Str :=
  splitEachGo (· = '\n') s []

/-- Drop empty interior segments but keep the final one. -/
def keepLast : List Str → List Str
  | [] => []
  | [x] => [x]
  | x :: xs => if x = [] then keepLast xs else x :: keepLast xs

/-- `re.split('[..]+', text)`: split on maximal runs of separator characters.
Equivalent to splitting at every separator and dropping the empty interior
segments (interior segments between two *maximal* runs are empty exactly when
two runs were adjacent). -/
def splitRuns (f : Char → Bool) (s : Str) : List Str :=
  match splitEachGo f s [] with
  | [] => []
  | x :: rest => x :: keepLast rest

/-- `re.split('[..]', text)`: split at every separator character. -/
def splitEach (f : Char → Bool) (s : Str) : List Str :=
  splitEachGo f s []

/-- `text.split()` (no argument): whitespace runs, empties dropped. -/
def splitWs (s : Str) : List Str :=
  (splitRuns isSpaceChar s).filter (· ≠ [])

/-- `' '.join(parts)`. -/
def joinSp (parts : List Str) : Str := List.intercalate [' '] parts

/-- `', '.join(parts)`. -/
def joinCommaSp (parts : List Str) : Str := List.intercalate [',', ' '] parts

/-- `s.split(sep)[0]` for a single-character separator: prefix before the first `sep`. -/
def takeBefore (sep : Char) (s : Str) : Str := s.takeWhile (· ≠ sep)

/-- Python word boundary `\b` at the position between `prev` and the head of `rest`. -/
def atBoundary (prev : Option Char) (rest : Str) : Bool :=
  let pw := match prev with | some c => isWordChar c | none => false
  let nw := match rest with | c :: _ => isWordChar c | [] => false
  pw != nw

/-- Whole-word search `re.search(r'\b' + re.escape(skill) + r'\b', text)`. -/
def wwSearch (pat : Str) (s : Str) : Bool :=
  go none s where
  go (prev : Option Char) : Str → Bool
    | [] => false
    | c :: cs =>
      (pat.isPrefixOf (c :: cs) && atBoundary prev (c :: cs) &&
        atBoundary (pat.getLast?.orElse (fun _ => prev)) (List.drop pat.length (c :: cs)))
      || go (some c) cs

end JobKit

namespace JobKit

/-- Mini regular-expression syntax covering the constructs used by the source.
`lit`/`litCI` are literal strings (case-sensitive / case-insensitive);
`cls` a one-character class; `starG`/`starL` greedy and lazy Kleene star of
a character class; `opt` a greedy `?`; `wb` is `\b`; `eos` is `$` (end of
input, or just before a final newline); `grp` a capturing group;
`look` a lookahead `(?=..)`. -/
inductive RE where
  | eps
  | lit (s : Str)
  | litCI (s : Str)
  | cls (f : Char → Bool)
  | seq (a b : RE)
  | alt (a b : RE)
  | opt (r : RE)
  | starG (f : Char → Bool)
  | starL (f : Char → Bool)
  | wb
  | eos
  | grp (n : Nat) (r : RE)
  | look (r : RE)

/-- Case-insensitive equality of two character lists (equal lengths required),
used for `re.IGNORECASE` literals. -/
def lowerEq : Str → Str → Bool
  | [], [] => true
  | a :: as, b :: bs => (a.toLower == b.toLower) && lowerEq as bs
  | _, _ => false

/-- One result of a match attempt: the consumed characters, the character
just before the new position, the remaining input, and captured groups. -/
structure MRes where
  cons : Str
  prev : Option Char
  rest : Str
  caps : List (Nat × Str)

/-- All ways `r` can match a prefix of `s` (whose preceding character is
`prev`), in Python backtracking priority order. -/
def run : RE → Option Char → Str → List MRes
  | .eps, p, s => [⟨[], p, s, []⟩]
  | .lit l, p, s =>
    if l.isPrefixOf s then
      [⟨l, (l.getLast?.orElse (fun _ => p)), s.drop l.length, []⟩]
    else []
  | .litCI l, p, s =>
    let pre := s.take l.length
    if lowerEq pre l then
      [⟨pre, (pre.getLast?.orElse (fun _ => p)), s.drop l.length, []⟩]
    else []
  | .cls f, _, s =>
    match s with
    | [] => []
    | c :: cs => if f c then [⟨[c], some c, cs, []⟩] else []
  | .seq a b, p, s =>
    (run a p s).flatMap fun ra =>
      (run b ra.prev ra.rest).map fun rb =>
        ⟨ra.cons ++ rb.cons, rb.prev, rb.rest, ra.caps ++ rb.caps⟩
  | .alt a b, p, s => run a p s ++ run b p s
  | .opt r, p, s => run r p s ++ [⟨[], p, s, []⟩]
  | .starG f, p, s =>
    let k := (s.takeWhile f).length
    (List.range (k + 1)).reverse.map fun i =>
      ⟨s.take i, ((s.take i).getLast?.orElse (fun _ => p)), s.drop i, []⟩
  | .starL f, p, s =>
    let k := (s.takeWhile f).length
    (List.range (k + 1)).map fun i =>
      ⟨s.take i, ((s.take i).getLast?.orElse (fun _ => p)), s.drop i, []⟩
  | .wb, p, s => if atBoundary p s then [⟨[], p, s, []⟩] else []
  | .eos, p, s => if s = [] || s = ['\n'] then [⟨[], p, s, []⟩] else []
  | .grp n r, p, s =>
    (run r p s).map fun m => ⟨m.cons, m.prev, m.rest, m.caps ++ [(n, m.cons)]⟩
  | .look r, p, s => if (run r p s).isEmpty then [] else [⟨[], p, s, []⟩]

/-- `re.match`: does `r` match at the start of `s`? -/
def reMatchB (r : RE) (s : Str) : Bool := !(run r none s).isEmpty

/-- Leftmost match, Python `re.search`: scan start positions left to right,
returning the highest-priority match at the first matching position. -/
def reFirstAux (r : RE) (prev : Option Char) : Str → Option MRes
  | [] =>
    match run r prev [] with
    | m :: _ => some m
    | [] => none
  | c :: cs =>
    match run r prev (c :: cs) with
    | m :: _ => some m
    | [] => reFirstAux r (some c) cs

def reFirst (r : RE) (s : Str) : Option MRes := reFirstAux r none s

/-- `re.search(..) is not None`. -/
def reSearchB (r : RE) (s : Str) : Bool := (reFirst r s).isSome

/-- Captured group `n` of a match. -/
def capOf (m : MRes) (n : Nat) : Option Str :=
  (m.caps.find? (fun p => p.fst = n)).map Prod.snd

/-- `re.findall` for patterns whose single group spans the whole match:
successive leftmost non-overlapping matches, collecting the consumed text.
`fuel` bounds the recursion; it is always called with `s.length + 1`. -/
def findAllAux (r : RE) (prev : Option Char) (s : Str) : Nat → List Str
  | 0 => []
  | fuel + 1 =>
    match reFirstAux r prev s with
    | none => []
    | some m =>
      if m.cons = [] then [] else
        m.cons :: findAllAux r m.prev m.rest fuel

def findAll (r : RE) (s : Str) : List Str := findAllAux r none s (s.length + 1)

/-- Sequence a list of regexes. -/
def seqAll : List RE → RE
  | [] => .eps
  | [r] => r
  | r :: rs => .seq r (seqAll rs)

/-- Alternation of a list of regexes (left priority first). -/
def altAll : List RE → RE
  | [] => .lit ['\x00']  -- unused; alternations in the source are non-empty
  | [r] => r
  | r :: rs => .alt r (altAll rs)

/-- `X+` for a character class: one char then a greedy star. -/
def plusG (f : Char → Bool) : RE := .seq (.cls f) (.starG f)

/-- `(.+?)` — lazy dot-plus; `nl` tells whether `.` matches newline (DOTALL). -/
def lazyDotPlus (dotall : Bool) : RE :=
  let f : Char → Bool := fun c => dotall || c ≠ '\n'
  .seq (.cls f) (.starL f)

end JobKit

namespace JobKit

/-- `TECH_SKILLS`: the categorized skill taxonomy, in source (insertion) order. -/
def TECH_SKILLS : List (String × List String) := [
  ("languages", [
    "python", "javascript", "typescript", "java", "c++", "c#", "go", "golang",
    "rust", "ruby", "php", "swift", "kotlin", "scala", "r", "matlab",
    "perl", "haskell", "elixir", "clojure", "dart", "lua", "groovy",
    "objective-c", "f#", "julia", "cobol", "fortran", "assembly"]),
  ("frontend", [
    "react", "reactjs", "vue", "vuejs", "angular", "angularjs", "svelte",
    "html", "html5", "css", "css3", "sass", "scss", "less", "tailwind",
    "tailwindcss", "bootstrap", "jquery", "webpack", "vite", "parcel",
    "nextjs", "next.js", "nuxt", "nuxtjs", "gatsby", "remix",
    "styled-components", "emotion", "material-ui", "mui", "chakra",
    "ant design", "redux", "mobx", "zustand", "recoil", "pinia",
    "storybook", "cypress", "playwright", "jest", "testing-library",
    "figma", "sketch", "adobe xd", "responsive design", "accessibility", "a11y",
    "pwa", "web components", "webgl", "three.js", "d3", "d3.js"]),
  ("backend", [
    "node", "nodejs", "express", "expressjs", "fastapi", "django", "flask",
    "spring", "spring boot", "rails", "ruby on rails", ".net", "asp.net",
    "laravel", "symfony", "gin", "echo", "fiber", "fastify", "nestjs",
    "koa", "hapi", "phoenix", "actix", "rocket", "axum",
    "graphql", "rest", "restful", "api", "microservices", "grpc",
    "websocket", "socket.io", "rabbitmq", "kafka", "celery", "sidekiq",
    "oauth", "jwt", "authentication", "authorization"]),
  ("databases", [
    "sql", "postgresql", "postgres", "mysql", "mariadb", "sqlite",
    "mongodb", "mongo", "redis", "elasticsearch", "elastic",
    "dynamodb", "cassandra", "couchdb", "couchbase", "neo4j",
    "oracle", "sql server", "mssql", "firebase", "firestore",
    "supabase", "prisma", "sequelize", "typeorm", "sqlalchemy",
    "mongoose", "drizzle", "knex", "hasura", "timescaledb",
    "influxdb", "clickhouse", "cockroachdb", "planetscale"]),
  ("cloud", [
    "aws", "amazon web services", "azure", "microsoft azure",
    "gcp", "google cloud", "google cloud platform",
    "heroku", "vercel", "netlify", "cloudflare", "digital ocean",
    "linode", "vultr", "render", "railway", "fly.io",
    "ec2", "s3", "lambda", "cloudfront", "route53", "rds",
    "ecs", "eks", "fargate", "elastic beanstalk",
    "api gateway", "sqs", "sns", "kinesis", "step functions"]),
  ("devops", [
    "docker", "kubernetes", "k8s", "terraform", "ansible", "puppet",
    "chef", "vagrant", "packer", "helm", "istio", "envoy",
    "jenkins", "github actions", "gitlab ci", "circleci", "travis ci",
    "azure devops", "bitbucket pipelines", "argo cd", "flux",
    "ci/cd", "continuous integration", "continuous deployment",
    "prometheus", "grafana", "datadog", "new relic", "splunk",
    "elk", "logstash", "kibana", "cloudwatch", "pagerduty",
    "nginx", "apache", "haproxy", "traefik", "caddy"]),
  ("data_science", [
    "machine learning", "ml", "deep learning", "dl", "neural networks",
    "tensorflow", "pytorch", "keras", "scikit-learn", "sklearn",
    "pandas", "numpy", "scipy", "matplotlib", "seaborn", "plotly",
    "jupyter", "jupyter notebook", "colab", "databricks",
    "spark", "pyspark", "hadoop", "hive", "presto", "trino",
    "airflow", "luigi", "dagster", "prefect", "mlflow",
    "dbt", "looker", "tableau", "power bi", "metabase", "superset",
    "nlp", "natural language processing", "computer vision", "cv",
    "transformers", "huggingface", "langchain", "openai", "gpt",
    "llm", "large language models", "rag", "vector database",
    "pinecone", "weaviate", "milvus", "chromadb"]),
  ("mobile", [
    "ios", "android", "react native", "flutter", "xamarin",
    "swift", "swiftui", "uikit", "kotlin", "jetpack compose",
    "cordova", "ionic", "capacitor", "expo", "nativescript",
    "mobile development", "app development"]),
  ("testing", [
    "testing", "unit testing", "integration testing", "e2e testing",
    "tdd", "test-driven development", "bdd", "behavior-driven",
    "jest", "mocha", "chai", "jasmine", "pytest", "unittest",
    "rspec", "junit", "testng", "selenium", "puppeteer",
    "cypress", "playwright", "detox", "appium",
    "postman", "insomnia", "api testing", "load testing",
    "jmeter", "locust", "k6", "artillery"]),
  ("security", [
    "security", "cybersecurity", "infosec", "appsec",
    "owasp", "penetration testing", "pen testing", "vulnerability",
    "encryption", "ssl", "tls", "https", "certificates",
    "authentication", "authorization", "oauth", "saml", "sso",
    "identity management", "iam", "rbac", "abac",
    "soc2", "gdpr", "hipaa", "pci", "compliance",
    "vault", "secrets management", "key management"]),
  ("tools", [
    "git", "github", "gitlab", "bitbucket", "svn",
    "linux", "unix", "bash", "shell", "powershell", "zsh",
    "vim", "neovim", "emacs", "vscode", "visual studio",
    "intellij", "pycharm", "webstorm", "eclipse",
    "agile", "scrum", "kanban", "safe", "lean",
    "jira", "confluence", "notion", "asana", "trello",
    "slack", "teams", "zoom", "figma", "miro",
    "postman", "swagger", "openapi", "api documentation"]),
  ("soft_skills", [
    "leadership", "management", "mentoring", "coaching",
    "communication", "collaboration", "teamwork",
    "problem solving", "critical thinking", "analytical",
    "project management", "product management", "stakeholder",
    "presentation", "documentation", "technical writing",
    "cross-functional", "remote work", "distributed teams"])]

/-- `ALL_SKILLS`: flattened taxonomy, in category then list order. -/
def ALL_SKILLS : List Str :=
  (TECH_SKILLS.flatMap Prod.snd).map String.toList

end JobKit

namespace JobKit

structure JobAnalysis where
  required_skills : List Str
  preferred_skills : List Str
  experience_level : Str
  key_responsibilities : List Str
  keywords : List Str
deriving DecidableEq

def isSpaceColon (c : Char) : Bool := isSpaceChar c || c = ':'

def isDashSpace (c : Char) : Bool := c = '-' || c = ' '

/-- `(required|must have|requirements?|qualifications?)[\s:]*(.+?)(?=preferred|nice to have|bonus|plus|$)`
with `re.DOTALL`. -/
def reqSecRE : RE :=
  seqAll [.grp 1 (altAll [.lit ("required").toList, .lit ("must have").toList,
      .seq (.lit ("requirement").toList) (.opt (.lit ("s").toList)),
      .seq (.lit ("qualification").toList) (.opt (.lit ("s").toList))]),
    .starG isSpaceColon,
    .grp 2 (lazyDotPlus true),
    .look (altAll [.lit ("preferred").toList, .lit ("nice to have").toList,
      .lit ("bonus").toList, .lit ("plus").toList, .eos])]

/-- `(preferred|nice to have|bonus|plus|desired)[\s:]*(.+?)(?=responsibilities|about|what you|who you|$)`
with `re.DOTALL`. -/
def prefSecRE : RE :=
  seqAll [.grp 1 (altAll [.lit ("preferred").toList, .lit ("nice to have").toList,
      .lit ("bonus").toList, .lit ("plus").toList, .lit ("desired").toList]),
    .starG isSpaceColon,
    .grp 2 (lazyDotPlus true),
    .look (altAll [.lit ("responsibilities").toList, .lit ("about").toList,
      .lit ("what you").toList, .lit ("who you").toList, .eos])]

/-- `\b(senior|lead|principal|staff|architect)\b` -/
def seniorRE : RE :=
  seqAll [.wb, .grp 1 (altAll [.lit ("senior").toList, .lit ("lead").toList,
    .lit ("principal").toList, .lit ("staff").toList, .lit ("architect").toList]), .wb]

/-- `\b(mid[- ]?level|3-5|4-6|5\+|3\+|4\+)\s*years?\b` -/
def midYearsRE : RE :=
  seqAll [.wb, .grp 1 (altAll [
      seqAll [.lit ("mid").toList, .opt (.cls isDashSpace), .lit ("level").toList],
      .lit ("3-5").toList, .lit ("4-6").toList,
      .lit ("5+").toList, .lit ("3+").toList, .lit ("4+").toList]),
    .starG isSpaceChar, .lit ("year").toList, .opt (.lit ("s").toList), .wb]

/-- `\b(junior|entry[- ]?level|0-2|1-3|associate|graduate)\s*(years?)?\b` -/
def entryLevelRE : RE :=
  seqAll [.wb, .grp 1 (altAll [.lit ("junior").toList,
      seqAll [.lit ("entry").toList, .opt (.cls isDashSpace), .lit ("level").toList],
      .lit ("0-2").toList, .lit ("1-3").toList,
      .lit ("associate").toList, .lit ("graduate").toList]),
    .starG isSpaceChar, .opt (.grp 2 (.seq (.lit ("year").toList) (.opt (.lit ("s").toList)))), .wb]

/-- `\b(7-10|8\+|10\+)\s*years?\b` -/
def seniorYearsRE : RE :=
  seqAll [.wb, .grp 1 (altAll [.lit ("7-10").toList, .lit ("8+").toList, .lit ("10+").toList]),
    .starG isSpaceChar, .lit ("year").toList, .opt (.lit ("s").toList), .wb]

/-- `action_verbs` from `extract_keywords_from_job`. -/
def action_verbs : List Str :=
  (["build", "develop", "design", "implement", "create", "maintain",
    "lead", "collaborate", "write", "test", "deploy", "optimize",
    "architect", "scale", "manage", "mentor", "review", "troubleshoot",
    "analyze", "integrate", "automate", "improve", "ensure", "support"]).map String.toList

/-- The five `keyword_patterns`. -/
def keywordREs : List RE := [
  seqAll [.wb, .grp 1 (altAll (["startup", "enterprise", "b2b", "b2c", "saas", "fintech",
    "healthcare", "e-commerce", "edtech", "martech"].map (fun s => RE.lit s.toList))), .wb],
  seqAll [.wb, .grp 1 (altAll (["remote", "hybrid", "onsite", "on-site", "in-office"].map
    (fun s => RE.lit s.toList))), .wb],
  seqAll [.wb, .grp 1 (altAll [
      seqAll [.lit ("full").toList, .opt (.cls isDashSpace), .lit ("time").toList],
      seqAll [.lit ("part").toList, .opt (.cls isDashSpace), .lit ("time").toList],
      .lit ("contract").toList, .lit ("contractor").toList, .lit ("freelance").toList]), .wb],
  seqAll [.wb, .grp 1 (altAll (["agile", "scrum", "kanban", "waterfall"].map
    (fun s => RE.lit s.toList))), .wb],
  seqAll [.wb, .grp 1 (altAll [
      seqAll [.lit ("fast").toList, .opt (.cls isDashSpace), .lit ("paced").toList],
      seqAll [.lit ("high").toList, .opt (.cls isDashSpace), .lit ("growth").toList],
      seqAll [.lit ("early").toList, .opt (.cls isDashSpace), .lit ("stage").toList],
      .seq (.lit ("series ").toList) (.cls (fun c => decide ('a' ≤ c) && decide (c ≤ 'd')))]), .wb]]

/-- The trailing loop of the skill categorization: any found skill not yet in
either list is appended to `preferred_skills` (the membership test is against
the growing list, mirroring the Python loop). -/
def addRemaining (req : List Str) (pref : List Str) : List Str → List Str
  | [] => pref
  | s :: rest =>
    if s ∈ req ∨ s ∈ pref then addRemaining req pref rest
    else addRemaining req (pref ++ [s]) rest

/-- The `found_skills` scan: every taxonomy skill whole-word-present in the
lower-cased text. -/
def foundSkills (text : Str) : List Str :=
  ALL_SKILLS.filter (fun sk => wwSearch sk text)

/-- `required_section.group(2)`. -/
def requiredSectionText (text : Str) : Option Str :=
  (reFirst reqSecRE text).bind (fun m => capOf m 2)

/-- `preferred_section.group(2)`. -/
def preferredSectionText (text : Str) : Option Str :=
  (reFirst prefSecRE text).bind (fun m => capOf m 2)

/-- The first categorization loop: found skills occurring (as substrings)
inside the required-section text. -/
def requiredFrom (found : List Str) (rt : Option Str) : List Str :=
  match rt with
  | some t => found.filter (fun sk => isSubstr sk t)
  | none => []

/-- The second categorization loop: found skills occurring inside the
preferred-section text and not already categorized as required. -/
def preferredFrom (found req : List Str) (pt : Option Str) : List Str :=
  match pt with
  | some t => found.filter (fun sk => isSubstr sk t && !(req.contains sk))
  | none => []

/-- The experience-level cascade. -/
def experienceLevelOf (text : Str) : Str :=
  if reSearchB seniorRE text then ("senior").toList
  else if reSearchB midYearsRE text then ("mid-level").toList
  else if reSearchB entryLevelRE text then ("entry-level").toList
  else if reSearchB seniorYearsRE text then ("senior").toList
  else ("entry-level").toList

/-- The key-responsibilities scan (sentences with an action verb, length > 20,
first five in source order). -/
def responsibilitiesOf (job_description : Str) : List Str :=
  let sentences := splitEach (fun c => c = '.' || c = '•' || c = '\n') job_description
  ((sentences.map strip).filter (fun st =>
    action_verbs.any (fun v => isSubstr v (lower st)) && st.length > 20)).take 5

/-- The keyword scan: `re.findall` of each keyword pattern over the lowered text. -/
def keywordsOf (text : Str) : List Str :=
  keywordREs.flatMap (fun r => findAll r text)

/-- `extract_keywords_from_job` (`list(set(..))` is modelled by `List.dedup`,
which has the same membership and no duplicates; Python's set order is
unspecified). -/
def extract_keywords_from_job (job_description : Str) : JobAnalysis :=
  if job_description = [] then
    ⟨[], [], ("unknown").toList, [], []⟩
  else
    let text := lower job_description
    let found_skills := foundSkills text
    let required1 := requiredFrom found_skills (requiredSectionText text)
    let preferred1 := preferredFrom found_skills required1 (preferredSectionText text)
    let required_skills := if required1 = [] ∧ preferred1 = [] then found_skills else required1
    let preferred_skills := addRemaining required_skills preferred1 found_skills
    ⟨required_skills.dedup, preferred_skills.dedup, experienceLevelOf text,
      responsibilitiesOf job_description, (keywordsOf text).dedup⟩

end JobKit

namespace JobKit

/-- Round half to even (CPython `round` on a tie-free/representable value). -/
def roundHalfEven (q : ℚ) : ℤ :=
  let f := ⌊q⌋
  let r := q - f
  if r < 1 / 2 then f else if 1 / 2 < r then f + 1 else if f % 2 = 0 then f else f + 1

/-- `round(x, 2)`. -/
def round2 (q : ℚ) : ℚ := (roundHalfEven (q * 100) : ℚ) / 100

structure MatchResult where
  match_score : ℚ
  matching_skills : List Str
  missing_skills : List Str
  suggestions : List Str
deriving DecidableEq

/-- An apostrophe character (used inside generated suggestion strings). -/
def sq : Str := [Char.ofNat 39]

/-- `\d+x` -/
def numXRE : RE := .seq (plusG isDigitChar) (.lit ("x").toList)

/-- The matching-skills loop of `analyze_resume_match`: job skills whole-word
present in the lowered resume. -/
def matchingSkillsOf (all_job_skills : List Str) (resume_lower : Str) : List Str :=
  all_job_skills.filter (fun sk => wwSearch sk resume_lower)

/-- The missing-skills half of the same loop. -/
def missingSkillsOf (all_job_skills : List Str) (resume_lower : Str) : List Str :=
  all_job_skills.filter (fun sk => !(wwSearch sk resume_lower))

/-- The weighted score of `analyze_resume_match`, before rounding. -/
def rawScore (ja : JobAnalysis) (resume_lower : Str) : ℚ :=
  let matching_skills :=
    matchingSkillsOf (ja.required_skills ++ ja.preferred_skills) resume_lower
  let required_match : ℚ :=
    (ja.required_skills.filter (fun s => s ∈ matching_skills)).length
  let preferred_match : ℚ :=
    (ja.preferred_skills.filter (fun s => s ∈ matching_skills)).length
  let required_total : ℚ := ja.required_skills.length
  let preferred_total : ℚ := ja.preferred_skills.length
  if required_total + preferred_total > 0 then
    (if required_total > 0 then required_match / required_total else 1 / 2) * (7 / 10) +
    (if preferred_total > 0 then preferred_match / preferred_total else 1 / 2) * (3 / 10)
  else 1 / 2

/-- `analyze_resume_match`. -/
def analyze_resume_match (resume_text job_description : Str) : MatchResult :=
  if resume_text = [] ∨ job_description = [] then
    ⟨0, [], [], [("Please provide both resume and job description").toList]⟩
  else
    let job_analysis := extract_keywords_from_job job_description
    let resume_lower := lower resume_text
    let all_job_skills := job_analysis.required_skills ++ job_analysis.preferred_skills
    let matching_skills := matchingSkillsOf all_job_skills resume_lower
    let missing_skills := missingSkillsOf all_job_skills resume_lower
    let sugg1 : List Str :=
      if missing_skills ≠ [] then
        (let required_missing := missing_skills.filter (· ∈ job_analysis.required_skills)
         let preferred_missing :=
           (missing_skills.filter (· ∈ job_analysis.preferred_skills)).take 3
         (if required_missing ≠ [] then
            [("Critical: Add experience with required skills: ").toList ++
              joinCommaSp (required_missing.take 4)]
          else []) ++
         (if preferred_missing ≠ [] then
            [("Consider adding: ").toList ++ joinCommaSp preferred_missing]
          else []))
      else []
    let sugg2 : List Str :=
      if job_analysis.experience_level = ("senior").toList then
        (if !(isSubstr ("lead").toList resume_lower) &&
            !(isSubstr ("senior").toList resume_lower) &&
            !(isSubstr ("architect").toList resume_lower) then
          [("Highlight leadership experience and senior-level responsibilities").toList]
         else []) ++
        (if !(isSubstr ("mentor").toList resume_lower) then
          [("Add mentoring experience if applicable").toList]
         else [])
      else []
    let sugg3 : List Str :=
      if !(isSubstr ("metrics").toList resume_lower) &&
         !(isSubstr (['%']) resume_text) && !(reSearchB numXRE resume_lower) then
        [("Add quantifiable achievements (e.g., ").toList ++ sq ++
          ("Improved performance by 40%").toList ++ sq ++ (")").toList]
      else []
    let sugg4 : List Str :=
      (job_analysis.keywords.filter (fun kw => !(isSubstr kw resume_lower))).map
        (fun kw => ("Consider mentioning ").toList ++ sq ++ kw ++ sq ++
          (" if relevant to your experience").toList)
    ⟨round2 (rawScore job_analysis resume_lower), matching_skills, missing_skills,
      (sugg1 ++ sugg2 ++ sugg3 ++ sugg4).take 5⟩

end JobKit

namespace JobKit

/-- A pydantic `ValidationError` raised by a schema constructor
(`min_length`/`max_length` constraints in `app/schemas.py`). -/
inductive ValErr where
  | tooShort (field : String)
  | tooLong (field : String) (limit : Nat)
deriving DecidableEq

/-- `Field(..., min_length=1, max_length=n)` on a required `str`. -/
def chkReq (field : String) (maxLen : Nat) (v : Str) : Except ValErr Str :=
  if v.length < 1 then .error (.tooShort field)
  else if maxLen < v.length then .error (.tooLong field maxLen)
  else .ok v

/-- `Field(None, max_length=n)` on an `Optional[str]`. -/
def chkOpt (field : String) (maxLen : Nat) (v : Option Str) : Except ValErr (Option Str) :=
  match v with
  | none => .ok none
  | some s => if maxLen < s.length then .error (.tooLong field maxLen) else .ok (some s)

structure ResumeExperience where
  company : Str
  title : Str
  start_date : Option Str
  end_date : Option Str
  location : Option Str
  bullets : List Str
deriving DecidableEq

def mkResumeExperience (company title : Str) (start_date end_date location : Option Str)
    (bullets : List Str) : Except ValErr ResumeExperience := do
  let c ← chkReq ("company") 200 company
  let t ← chkReq ("title") 200 title
  let sd ← chkOpt ("start_date") 50 start_date
  let ed ← chkOpt ("end_date") 50 end_date
  let loc ← chkOpt ("location") 200 location
  .ok ⟨c, t, sd, ed, loc, bullets⟩

structure ResumeEducation where
  school : Str
  degree : Option Str
  field : Option Str
  year : Option Str
  gpa : Option Str
deriving DecidableEq

def mkResumeEducation (school : Str) (degree field year gpa : Option Str) :
    Except ValErr ResumeEducation := do
  let s ← chkReq ("school") 200 school
  let d ← chkOpt ("degree") 200 degree
  let f ← chkOpt ("field") 200 field
  let y ← chkOpt ("year") 20 year
  let g ← chkOpt ("gpa") 20 gpa
  .ok ⟨s, d, f, y, g⟩

structure ResumeProject where
  name : Str
  description : Option Str
  technologies : List Str
  url : Option Str
deriving DecidableEq

def mkResumeProject (name : Str) (description : Option Str) (technologies : List Str)
    (url : Option Str) : Except ValErr ResumeProject := do
  let n ← chkReq ("name") 200 name
  let d ← chkOpt ("description") 1000 description
  let u ← chkOpt ("url") 500 url
  .ok ⟨n, d, technologies, u⟩

structure StructuredResume where
  summary : Option Str
  experience : List ResumeExperience
  education : List ResumeEducation
  skills : List Str
  projects : List ResumeProject
  certifications : List Str
  raw_text : Option Str
deriving DecidableEq

def mkStructuredResume (summary : Option Str) (experience : List ResumeExperience)
    (education : List ResumeEducation) (skills : List Str) (projects : List ResumeProject)
    (certifications : List Str) (raw_text : Option Str) : Except ValErr StructuredResume := do
  let s ← chkOpt ("summary") 2000 summary
  .ok ⟨s, experience, education, skills, projects, certifications, raw_text⟩

end JobKit

namespace JobKit

def sp : RE := plusG isSpaceChar      -- `\s+`
def sps : RE := .starG isSpaceChar    -- `\s*`

/-- `SECTION_HEADERS`, one compiled pattern list per section type, in source
(dict-insertion) order.  All patterns are applied to an already lower-cased
line, so plain literals suffice. -/
def SECTION_HEADERS : List (String × List RE) := [
  ("summary", [
    seqAll [.opt (.seq (.lit ("professional").toList) sp), .lit ("summary").toList, .wb],
    .seq (.lit ("profile").toList) .wb,
    seqAll [.opt (.seq (.lit ("career").toList) sp), .lit ("objective").toList, .wb],
    seqAll [.lit ("about").toList, sps, .opt (.lit ("me").toList), .wb],
    .seq (.lit ("overview").toList) .wb]),
  ("experience", [
    seqAll [.opt (.alt (.seq (.lit ("work").toList) sp) (.seq (.lit ("professional").toList) sp)),
      .lit ("experience").toList, .wb],
    seqAll [.opt (.seq (.lit ("work").toList) sp), .lit ("history").toList, .wb],
    .seq (.lit ("employment").toList) .wb,
    seqAll [.lit ("career").toList, sp, .lit ("history").toList, .wb],
    seqAll [.lit ("position").toList, .opt (.lit ("s").toList), sp, .lit ("held").toList, .wb]]),
  ("education", [
    .seq (.lit ("education").toList) .wb,
    seqAll [.lit ("academic").toList, sps, .opt (.lit ("background").toList), .wb],
    seqAll [.lit ("degree").toList, .opt (.lit ("s").toList), .wb],
    seqAll [.lit ("qualification").toList, .opt (.lit ("s").toList), .wb]]),
  ("skills", [
    seqAll [.opt (.alt (.seq (.lit ("technical").toList) sp) (.seq (.lit ("core").toList) sp)),
      .lit ("skill").toList, .opt (.lit ("s").toList), .wb],
    seqAll [.opt (.seq (.lit ("technical").toList) sp), .lit ("competenc").toList,
      .alt (.lit ("ies").toList) (.lit ("y").toList), .wb],
    .seq (.lit ("technologies").toList) .wb,
    .seq (.lit ("expertise").toList) .wb,
    seqAll [.lit ("proficienc").toList, .alt (.lit ("ies").toList) (.lit ("y").toList), .wb],
    seqAll [.lit ("tool").toList, .opt (.lit ("s").toList), sps,
      .opt (.alt (.lit ("&").toList) (.lit ("and").toList)), sps,
      .lit ("technologies").toList, .wb]]),
  ("projects", [
    seqAll [.opt (.alt (.seq (.lit ("personal").toList) sp) (.seq (.lit ("side").toList) sp)),
      .lit ("project").toList, .opt (.lit ("s").toList), .wb],
    .seq (.lit ("portfolio").toList) .wb,
    seqAll [.lit ("selected").toList, sp, .lit ("project").toList, .opt (.lit ("s").toList), .wb]]),
  ("certifications", [
    seqAll [.lit ("certification").toList, .opt (.lit ("s").toList), .wb],
    seqAll [.lit ("license").toList, .opt (.lit ("s").toList), sps,
      .opt (.alt (.lit ("&").toList) (.lit ("and").toList)), sps,
      .lit ("certification").toList, .opt (.lit ("s").toList), .wb],
    seqAll [.lit ("professional").toList, sp, .lit ("certification").toList,
      .opt (.lit ("s").toList), .wb],
    seqAll [.lit ("credential").toList, .opt (.lit ("s").toList), .wb]])]

/-- `_detect_section`. -/
def detect_section (line : Str) : Option String :=
  let line_clean := lower (rstripColon (strip line))
  if line_clean.length > 50 then none
  else (SECTION_HEADERS.find? (fun p => p.2.any (fun r => reMatchB r line_clean))).map Prod.fst

/-- `[-–—to]+` under `re.IGNORECASE`. -/
def isSepChar (c : Char) : Bool :=
  let l := c.toLower
  l = '-' || l = '–' || l = '—' || l = 't' || l = 'o'

def d4 : RE := seqAll [.cls isDigitChar, .cls isDigitChar, .cls isDigitChar, .cls isDigitChar]

def d12 : RE := .seq (.cls isDigitChar) (.opt (.cls isDigitChar))

/-- The 12-month alternation of `DATE_PATTERNS` (case-insensitive). -/
def monthRE : RE := altAll [
  .seq (.litCI ("jan").toList) (.opt (.litCI ("uary").toList)),
  .seq (.litCI ("feb").toList) (.opt (.litCI ("ruary").toList)),
  .seq (.litCI ("mar").toList) (.opt (.litCI ("ch").toList)),
  .seq (.litCI ("apr").toList) (.opt (.litCI ("il").toList)),
  .litCI ("may").toList,
  .seq (.litCI ("jun").toList) (.opt (.litCI ("e").toList)),
  .seq (.litCI ("jul").toList) (.opt (.litCI ("y").toList)),
  .seq (.litCI ("aug").toList) (.opt (.litCI ("ust").toList)),
  .seq (.litCI ("sep").toList) (.opt (.litCI ("tember").toList)),
  .seq (.litCI ("oct").toList) (.opt (.litCI ("ober").toList)),
  .seq (.litCI ("nov").toList) (.opt (.litCI ("ember").toList)),
  .seq (.litCI ("dec").toList) (.opt (.litCI ("ember").toList))]

/-- `Present|Current|Now` (case-insensitive). -/
def presentRE : RE :=
  altAll [.litCI ("present").toList, .litCI ("current").toList, .litCI ("now").toList]

/-- `DATE_PATTERNS`, in source order. -/
def DATE_PATTERNS : List RE := [
  seqAll [.grp 1 (seqAll [monthRE, sp, d4]), sps, plusG isSepChar, sps,
    .grp 2 (.alt presentRE (seqAll [monthRE, sp, d4]))],
  seqAll [.grp 1 d4, sps, plusG isSepChar, sps, .grp 2 (.alt presentRE d4)],
  seqAll [.grp 1 (seqAll [d12, .lit ("/").toList, d4]), sps, plusG isSepChar, sps,
    .grp 2 (.alt presentRE (seqAll [d12, .lit ("/").toList, d4]))]]

/-- `_parse_date_range`. -/
def parse_date_range (text : Str) : Option Str × Option Str :=
  match DATE_PATTERNS.findSome? (fun pat =>
      (reFirst pat text).bind (fun m =>
        match capOf m 1, capOf m 2 with
        | some g1, some g2 => some (g1, g2)
        | _, _ => none)) with
  | some (g1, g2) =>
    let sd := strip g1
    let ed := strip g2
    let ed := if lower ed = ("present").toList ∨ lower ed = ("current").toList ∨
        lower ed = ("now").toList then ("Present").toList else ed
    (some sd, some ed)
  | none => (none, none)

end JobKit

namespace JobKit

/-- Title keywords used when picking the headline line of an experience entry. -/
def expTitleWords : List Str :=
  (["engineer", "developer", "manager", "lead", "architect", "analyst",
    "designer", "intern", "director", "specialist", "consultant"]).map String.toList

/-- Title keywords used by the dash-split heuristic and the entry splitter. -/
def titleWords13 : List Str :=
  expTitleWords ++ ([("senior").toList, ("junior").toList])

def isDashPipe (c : Char) : Bool := c = '-' || c = '–' || c = '|'

def isDashEn (c : Char) : Bool := c = '-' || c = '–'

/-- `^(.+?)\s+at\s+(.+?)(?:\s*[-–|]|$)` with `re.IGNORECASE`. -/
def atRE : RE :=
  seqAll [.grp 1 (lazyDotPlus false), sp, .litCI ("at").toList, sp,
    .grp 2 (lazyDotPlus false), .alt (.seq sps (.cls isDashPipe)) .eos]

/-- `^(.+?)\s*[-–|]\s*(.+?)(?:\s*[-–|]|$)`. -/
def dashRE : RE :=
  seqAll [.grp 1 (lazyDotPlus false), sps, .cls isDashPipe, sps,
    .grp 2 (lazyDotPlus false), .alt (.seq sps (.cls isDashPipe)) .eos]

/-- Greedy bounded repetition `X{min,min+extra}` of a character class. -/
def optChain (f : Char → Bool) : Nat → RE
  | 0 => .eps
  | n + 1 => .opt (.seq (.cls f) (optChain f n))

def repRange (f : Char → Bool) (min extra : Nat) : RE :=
  .seq (seqAll (List.replicate min (.cls f))) (optChain f extra)

/-- `^\w{3,9}\s+\d{4}\s*[-–]`. -/
def wordDateRE : RE := seqAll [repRange isWordChar 3 6, sp, d4, sps, .cls isDashEn]

/-- `^\d{4}\s*[-–]`. -/
def yearDashRE : RE := seqAll [d4, sps, .cls isDashEn]

def isUpperAZ (c : Char) : Bool := decide ('A' ≤ c) && decide (c ≤ 'Z')

def isLowerAZ (c : Char) : Bool := decide ('a' ≤ c) && decide (c ≤ 'z')

/-- `\b([A-Z][a-z]+(?:\s+[A-Z][a-z]+)?),\s*([A-Z]{2}|[A-Z][a-z]+)\b`. -/
def locRE : RE :=
  seqAll [.wb,
    .grp 1 (seqAll [.cls isUpperAZ, plusG isLowerAZ,
      .opt (seqAll [sp, .cls isUpperAZ, plusG isLowerAZ])]),
    .lit (",").toList, sps,
    .grp 2 (.alt (.seq (.cls isUpperAZ) (.cls isUpperAZ))
      (.seq (.cls isUpperAZ) (plusG isLowerAZ))),
    .wb]

/-- Leading bullet-marker characters `[\s•\-\*▪◦→]` stripped by `re.sub(..,'',line)`. -/
def isBulletMark (c : Char) : Bool :=
  isSpaceChar c || c = '•' || c = '-' || c = '*' || c = '▪' || c = '◦' || c = '→'

def dropBulletMarks (s : Str) : Str := s.dropWhile isBulletMark

def startsWithAny (s : Str) (cs : List Char) : Bool :=
  match s with
  | [] => false
  | c :: _ => cs.contains c

/-- Highest-priority match of `r` anchored at the start (`re.match` with groups). -/
def matchFirst (r : RE) (s : Str) : Option MRes := (run r none s).head?

/-- `_extract_experience_entry`. -/
def extract_experience_entry (lines : List Str) : Except ValErr (Option ResumeExperience) :=
  if lines = [] then .ok none
  else
    -- first non-date line among the first three (date-only lines are skipped
    -- unless they contain a title keyword)
    let first_line :=
      match ((lines.take 3).map strip).find? (fun l =>
          !((parse_date_range l).1.isSome &&
            !(expTitleWords.any (fun w => isSubstr w (lower l)))) && l ≠ []) with
      | some l => l
      | none => strip (lines.headD [])
    let (title, company) :=
      match matchFirst atRE first_line with
      | some m =>
        (strip ((capOf m 1).getD []), strip ((capOf m 2).getD []))
      | none =>
        if !(reMatchB wordDateRE first_line) && !(reMatchB yearDashRE first_line) then
          match matchFirst dashRE first_line with
          | some m =>
            let part1 := strip ((capOf m 1).getD [])
            let part2 := strip ((capOf m 2).getD [])
            if titleWords13.any (fun w => isSubstr w (lower part1)) then (part1, part2)
            else (part2, part1)
          | none => (first_line, [])
        else (first_line, [])
    let dates := (lines.take 3).foldl (fun (p : Option Str × Option Str) line =>
      if p.1.isSome then p else parse_date_range line) (none, none)
    let location := (lines.take 3).foldl (fun (loc : Option Str) line =>
      match loc with
      | some _ => loc
      | none =>
        (reFirst locRE line).bind (fun m =>
          match capOf m 1, capOf m 2 with
          | some a, some b => some (a ++ (", ").toList ++ b)
          | _, _ => none)) none
    let bullets := (lines.drop 1).filterMap (fun l =>
      let l1 := strip l
      if l1 = [] || (parse_date_range l1).1.isSome then none
      else
        let l2 := strip (dropBulletMarks l1)
        if l2 ≠ [] && l2.length > 10 then some l2 else none)
    if title = [] ∧ company = [] then .ok none
    else
      (mkResumeExperience
        (if company = [] then ("Unknown Company").toList else company)
        (if title = [] then ("Unknown Title").toList else title)
        dates.1 dates.2 location (bullets.take 10)).map some

/-- Words marking an institution line in an education entry (case-sensitive). -/
def instWords : List Str :=
  (["University", "College", "Institute", "School", "Academy"]).map String.toList

/-- `Bachelor'?s?`-style degree alternative. -/
def degWord (w : String) : RE :=
  seqAll [.litCI w.toList, .opt (.lit sq), .opt (.litCI ("s").toList)]

/-- `M\.?S\.?`-style degree abbreviation. -/
def degAbbr (a b : String) : RE :=
  seqAll [.litCI a.toList, .opt (.lit (".").toList), .litCI b.toList, .opt (.lit (".").toList)]

/-- First degree pattern:
`(Bachelor'?s?|Master'?s?|Ph\.?D\.?|Doctor(?:ate)?|Associate'?s?|MBA|M\.?S\.?|B\.?S\.?|B\.?A\.?|M\.?A\.?)`. -/
def deg1RE : RE :=
  .grp 1 (altAll [degWord ("Bachelor"), degWord ("Master"), degAbbr ("Ph") ("D"),
    .seq (.litCI ("Doctor").toList) (.opt (.litCI ("ate").toList)),
    degWord ("Associate"), .litCI ("MBA").toList,
    degAbbr ("M") ("S"), degAbbr ("B") ("S"), degAbbr ("B") ("A"), degAbbr ("M") ("A")])

def isAzSpace (c : Char) : Bool := isUpperAZ c || isLowerAZ c || isSpaceChar c

def isSpaceComma (c : Char) : Bool := isSpaceChar c || c = ','

/-- Second degree pattern:
`(B\.?S\.?|B\.?A\.?|M\.?S\.?|M\.?A\.?|Ph\.?D\.?)[\s,]+(?:in\s+)?([A-Za-z\s]+?)(?:\s*[-,|]|$)`. -/
def deg2RE : RE :=
  seqAll [.grp 1 (altAll [degAbbr ("B") ("S"), degAbbr ("B") ("A"), degAbbr ("M") ("S"),
      degAbbr ("M") ("A"), degAbbr ("Ph") ("D")]),
    plusG isSpaceComma,
    .opt (.seq (.litCI ("in").toList) sp),
    .grp 2 (.seq (.cls isAzSpace) (.starL isAzSpace)),
    .alt (.seq sps (.cls (fun c => c = '-' || c = ',' || c = '|'))) .eos]

/-- `\b(20\d{2}|19\d{2})\b`. -/
def gradYearRE : RE :=
  seqAll [.wb, .grp 1 (.alt
    (seqAll [.lit ("20").toList, .cls isDigitChar, .cls isDigitChar])
    (seqAll [.lit ("19").toList, .cls isDigitChar, .cls isDigitChar])), .wb]

/-- `GPA[:\s]*(\d+\.?\d*)` with `re.IGNORECASE`. -/
def gpaRE : RE :=
  seqAll [.litCI ("GPA").toList, .starG isSpaceColon,
    .grp 1 (seqAll [plusG isDigitChar, .opt (.lit (".").toList), .starG isDigitChar])]

/-- `_extract_education_entry`. -/
def extract_education_entry (lines : List Str) : Except ValErr (Option ResumeEducation) :=
  if lines = [] then .ok none
  else
    let full_text := joinSp lines
    let school :=
      match (lines.map strip).find? (fun l => instWords.any (fun w => isSubstr w l)) with
      | some l => strip (takeBefore '-' (takeBefore '|' (takeBefore ',' l)))
      | none => strip (lines.headD [])
    let (degree, field) :=
      match reFirst deg1RE full_text with
      | some m => (strip ((capOf m 1).getD []), ([] : Str))
      | none =>
        match reFirst deg2RE full_text with
        | some m =>
          (strip ((capOf m 1).getD []),
            match capOf m 2 with
            | some g2 => if g2 ≠ [] then strip g2 else []
            | none => [])
        | none => ([], [])
    let year := (reFirst gradYearRE full_text).bind (fun m => capOf m 1)
    let gpa := (reFirst gpaRE full_text).bind (fun m => capOf m 1)
    if school = [] then .ok none
    else
      (mkResumeEducation school
        (if degree = [] then none else some degree)
        (if field = [] then none else some field)
        year gpa).map some

/-- Delimiters of the skills splitter `[,;•\-\*▪◦|/\n]+`. -/
def isSkillDelim (c : Char) : Bool :=
  c = ',' || c = ';' || c = '•' || c = '-' || c = '*' || c = '▪' || c = '◦' ||
  c = '|' || c = '/' || c = '\n'

/-- The taxonomy pass of `_extract_skills`: append each whole-word-matched
taxonomy skill unless it is already present case-insensitively (the membership
test is against the growing list, as in the Python loop). -/
def skillsTaxLoop (skills : List Str) (text_lower : Str) : List Str → List Str
  | [] => skills
  | sk :: rest =>
    if wwSearch sk text_lower && !((skills.map lower).contains sk) then
      skillsTaxLoop (skills ++ [sk]) text_lower rest
    else skillsTaxLoop skills text_lower rest

/-- `_extract_skills`. -/
def extract_skills (text : Str) : List Str :=
  let parts := (splitRuns isSkillDelim text).map strip
  let skills1 := parts.filter (fun p =>
    p ≠ [] && 3 < p.length && p.length < 50 && (detect_section p).isNone)
  let skills2 := skillsTaxLoop skills1 (lower text) ALL_SKILLS
  skills2.dedup.take 50

/-- `https?://[^\s]+`. -/
def urlRE : RE :=
  seqAll [.lit ("http").toList, .opt (.lit ("s").toList), .lit ("://").toList,
    plusG (fun c => !isSpaceChar c)]

/-- `^(?:tech(?:nologies)?|built with|stack|tools)[:\s]*` with `re.IGNORECASE`. -/
def techPrefixRE : RE :=
  .seq (altAll [.seq (.litCI ("tech").toList) (.opt (.litCI ("nologies").toList)),
    .litCI ("built with").toList, .litCI ("stack").toList, .litCI ("tools").toList])
    (.starG isSpaceColon)

/-- `str.replace(pat, '')` — remove every occurrence of `pat`. -/
def removeAll (pat : Str) : Str → Str
  | [] => []
  | c :: cs =>
    if h : pat ≠ [] ∧ pat.isPrefixOf (c :: cs) then
      removeAll pat (List.drop (pat.length - 1) cs)
    else c :: removeAll pat cs
termination_by s => s.length
decreasing_by
  all_goals simp [List.length_drop]
  all_goals omega

/-- `_parse_project`. -/
def parse_project (lines : List Str) : Except ValErr (Option ResumeProject) :=
  if lines = [] then .ok none
  else
    let name := strip (lines.headD [])
    let st := (lines.drop 1).foldl
      (fun (st : Str × List Str × Option Str) line =>
        let (description, technologies, url) := st
        let line1 := strip line
        let (line2, url') :=
          match reFirst urlRE line1 with
          | some m => (strip (removeAll m.cons line1), some m.cons)
          | none => (line1, url)
        if reMatchB techPrefixRE line2 then
          let tech_text :=
            match matchFirst techPrefixRE line2 with
            | some m => line2.drop m.cons.length
            | none => line2
          (description, ((splitRuns (fun c => c = ',' || c = ';' || c = '|') tech_text).map
            strip).filter (· ≠ []), url')
        else
          let line3 := strip (dropBulletMarks line2)
          (if line3 ≠ [] then description ++ line3 ++ [' '] else description,
            technologies, url'))
      ([], [], none)
    let description := strip st.1
    if name = [] then .ok none
    else
      (mkResumeProject name (if description = [] then none else some description)
        st.2.1 st.2.2).map some

/-- `_extract_projects`. -/
def flushProject (current : List Str) (acc : List ResumeProject) :
    Except ValErr (List ResumeProject) := do
  match ← parse_project current with
  | some p => .ok (acc ++ [p])
  | none => .ok acc

def extractProjectsGo : List Str → List Str → List ResumeProject →
    Except ValErr (List ResumeProject)
  | [], current, acc => do
    let acc ← if current ≠ [] then flushProject current acc else .ok acc
    .ok acc
  | l :: rest, current, acc =>
    let line := strip l
    if line = [] then do
      let acc ← if current ≠ [] then flushProject current acc else .ok acc
      extractProjectsGo rest [] acc
    else
      let is_new := line.length < 80 &&
        !(startsWithAny line ['•', '-', '*', '▪', '◦']) &&
        (match line with
         | c :: _ => isUpperAZ c || c = '"'
         | [] => false)
      if is_new && current ≠ [] then do
        let acc ← flushProject current acc
        extractProjectsGo rest [line] acc
      else extractProjectsGo rest (current ++ [line]) acc

def extract_projects (lines : List Str) : Except ValErr (List ResumeProject) := do
  let ps ← extractProjectsGo lines [] []
  .ok (ps.take 10)

/-- `_split_into_entries`. -/
def splitEntriesGo : List Str → List Str → List (List Str) → Bool → List (List Str)
  | [], current, entries, _ => if current ≠ [] then entries ++ [current] else entries
  | l :: rest, current, entries, hadEmpty =>
    let stripped := strip l
    if stripped = [] then splitEntriesGo rest current entries true
    else
      let is_new :=
        hadEmpty && current ≠ [] &&
        (let hasTitle := titleWords13.any (fun w => isSubstr w (lower stripped))
         let hasDate := (parse_date_range stripped).1.isSome ||
           (match rest.head? with
            | some nxt => (parse_date_range (strip nxt)).1.isSome
            | none => false)
         let notBullet := !(startsWithAny stripped ['•', '-', '*', '▪', '◦', '→'])
         (hasTitle || hasDate) && notBullet)
      if is_new then splitEntriesGo rest [l] (entries ++ [current]) false
      else splitEntriesGo rest (current ++ [l]) entries false

def split_into_entries (lines : List Str) : List (List Str) :=
  splitEntriesGo lines [] [] false

/-- The section-identification loop of `parse_resume_text`: a dict from section
type to accumulated lines, modelled as an association list with
insert-or-extend (`sections[k].extend(..)`) semantics. -/
def upsert (m : List (String × List Str)) (k : String) (v : List Str) :
    List (String × List Str) :=
  if m.any (fun p => p.1 = k) then
    m.map (fun p => if p.1 = k then (p.1, p.2 ++ v) else p)
  else m ++ [(k, v)]

def buildSections : List Str → String → List Str → List (String × List Str) →
    List (String × List Str)
  | [], cs, cur, acc => if cur ≠ [] then upsert acc cs cur else acc
  | l :: rest, cs, cur, acc =>
    match detect_section l with
    | some ty => buildSections rest ty [] (if cur ≠ [] then upsert acc cs cur else acc)
    | none => buildSections rest cs (cur ++ [l]) acc

def secFind (m : List (String × List Str)) (k : String) : Option (List Str) :=
  (m.find? (fun p => p.1 = k)).map Prod.snd

/-- Run an entry extractor over every entry, keeping the non-`None` results
(a raised `ValidationError` aborts the whole parse, as in Python). -/
def collectEntries {α : Type} (f : List Str → Except ValErr (Option α))
    (entries : List (List Str)) : Except ValErr (List α) :=
  entries.foldlM (fun acc e => do
    match ← f e with
    | some x => pure (acc ++ [x])
    | none => pure acc) []

/-- `parse_resume_text`. -/
def parse_resume_text (text : Str) : Except ValErr StructuredResume :=
  if text = [] then mkStructuredResume none [] [] [] [] [] (some text)
  else do
    let lines := splitNl text
    let sections := buildSections lines ("header") [] []
    let summary :=
      match secFind sections ("summary") with
      | some ls => some ((joinSp (splitWs (strip (List.intercalate ['\n'] ls)))).take 2000)
      | none => none
    let experience ←
      match secFind sections ("experience") with
      | some ls => collectEntries extract_experience_entry (split_into_entries ls)
      | none => pure []
    let education ←
      match secFind sections ("education") with
      | some ls => collectEntries extract_education_entry (split_into_entries ls)
      | none => pure []
    let skills :=
      match secFind sections ("skills") with
      | some ls => extract_skills (List.intercalate ['\n'] ls)
      | none => []
    let projects ←
      match secFind sections ("projects") with
      | some ls => extract_projects ls
      | none => pure []
    let certifications :=
      match secFind sections ("certifications") with
      | some ls => ls.filterMap (fun l =>
          let l' := strip (dropBulletMarks (strip l))
          if l' ≠ [] && l'.length > 3 then some l' else none)
      | none => []
    mkStructuredResume summary experience education skills projects
      (certifications.take 20) (some text)

end JobKit

namespace JobKit

/-- `TailoredSuggestion` (`section` is a Lean keyword, so that field is
named `sec` here). -/
structure TailoredSuggestion where
  sec : String
  original : Option Str
  suggestion : Str
  priority : String
  reason : String
deriving DecidableEq

structure TailoredResume where
  resume : StructuredResume
  suggestions : List TailoredSuggestion
  keywords_to_add : List Str
  skills_to_emphasize : List Str
  skills_to_add : List Str
  match_score : ℚ
deriving DecidableEq

/-- `\d+%|\d+x|\$\d+|\d+ (users?|customers?|requests?)` — the metrics pattern of
`tailor_resume_for_job`. -/
def metricsBulletRE : RE :=
  altAll [.seq (plusG isDigitChar) (.lit ("%").toList),
    .seq (plusG isDigitChar) (.lit ("x").toList),
    .seq (.lit ("$").toList) (plusG isDigitChar),
    seqAll [plusG isDigitChar, .lit (" ").toList,
      .grp 1 (altAll [.seq (.lit ("user").toList) (.opt (.lit ("s").toList)),
        .seq (.lit ("customer").toList) (.opt (.lit ("s").toList)),
        .seq (.lit ("request").toList) (.opt (.lit ("s").toList))])]]

/-- `weak_verbs` of `tailor_resume_for_job`. -/
def weak_verbs : List Str :=
  (["responsible for", "worked on", "helped with", "assisted"]).map String.toList

def reasonWeak : String := "Strong action verbs demonstrate initiative and impact"

def reasonMetrics : String := "Metrics make achievements concrete and memorable"

def weakBulletSugg (b : Str) (w : Str) : TailoredSuggestion :=
  ⟨"Experience",
    some (if b.length > 80 then b.take 80 ++ ("...").toList else b),
    ("Replace ").toList ++ sq ++ w ++ sq ++ (" with stronger action verbs like ").toList ++
      sq ++ ("Led").toList ++ sq ++ (", ").toList ++ sq ++ ("Developed").toList ++ sq ++
      (", ").toList ++ sq ++ ("Implemented").toList ++ sq,
    "medium", reasonWeak⟩

/-- The metrics suggestion for the first experience entry lacking metrics. -/
def metricsSugg (exp : ResumeExperience) : TailoredSuggestion :=
  ⟨"Experience", some (exp.title ++ (" at ").toList ++ exp.company),
    ("Add quantifiable metrics to your bullet points (e.g., ").toList ++ sq ++
      ("Improved performance by 40%").toList ++ sq ++ (")").toList,
    "medium", reasonMetrics⟩

/-- The metric scan of `tailor_resume_for_job`: the `for..break` loop appends
one suggestion for the first experience entry with no metrics in its bullets
(`find?`), or nothing if every entry has metrics. -/
def addMetricsSugg (base : List TailoredSuggestion) (mexp : Option ResumeExperience) :
    List TailoredSuggestion :=
  match mexp with
  | some exp => base ++ [metricsSugg exp]
  | none => base

/-- The weak-verb scan over one experience entry's bullets: at most one
suggestion per bullet (first matching weak phrase), stopping once the total
suggestion count exceeds 10. -/
def weakScanBullets (suggs : List TailoredSuggestion) : List Str → List TailoredSuggestion
  | [] => suggs
  | b :: bs =>
    let s' :=
      match weak_verbs.find? (fun w => isSubstr w (lower b)) with
      | some w => suggs ++ [weakBulletSugg b w]
      | none => suggs
    if s'.length > 10 then s' else weakScanBullets s' bs

/-- The weak-verb scan over all experience entries. -/
def weakScanExps (suggs : List TailoredSuggestion) :
    List ResumeExperience → List TailoredSuggestion
  | [] => suggs
  | e :: es =>
    let s' := weakScanBullets suggs e.bullets
    if s'.length > 10 then s' else weakScanExps s' es

/-- The (unweighted) match score of `tailor_resume_for_job`, before rounding. -/
def tailorRawScore (all_job_skills matching_skills : List Str) : ℚ :=
  if all_job_skills ≠ [] then
    (matching_skills.length : ℚ) / (all_job_skills.length : ℚ)
  else 1 / 2

/-- `tailor_resume_for_job`. -/
def tailor_resume_for_job (resume : StructuredResume) (job_description : Str) :
    TailoredResume :=
  let job_analysis := extract_keywords_from_job job_description
  let resume_text_parts :=
    (match resume.summary with | some s => [s] | none => []) ++
    (resume.experience.flatMap (fun exp =>
      (exp.title ++ [' '] ++ exp.company) :: exp.bullets)) ++
    resume.skills
  let resume_text := lower (joinSp resume_text_parts)
  let all_job_skills := job_analysis.required_skills ++ job_analysis.preferred_skills
  let matching_skills := all_job_skills.filter (fun s => isSubstr (lower s) resume_text)
  let missing_skills := all_job_skills.filter (fun s => !(isSubstr (lower s) resume_text))
  let required_missing := missing_skills.filter (· ∈ job_analysis.required_skills)
  let preferred_missing := missing_skills.filter (· ∈ job_analysis.preferred_skills)
  let sugg1 : List TailoredSuggestion :=
    if required_missing ≠ [] then
      [⟨"Skills", none,
        ("Add these required skills if you have experience: ").toList ++
          joinCommaSp (required_missing.take 5),
        "high", "These skills are listed as required in the job posting"⟩]
    else []
  let sugg2 : List TailoredSuggestion :=
    if preferred_missing ≠ [] then
      [⟨"Skills", none,
        ("Consider adding these preferred skills: ").toList ++
          joinCommaSp (preferred_missing.take 4),
        "medium", "These are listed as preferred/nice-to-have skills"⟩]
    else []
  let skills_to_emphasize :=
    resume.skills.filter (fun s => (matching_skills.map lower).contains (lower s))
  let sugg3 : List TailoredSuggestion :=
    match resume.summary with
    | some summ =>
      if job_analysis.experience_level = ("senior").toList &&
         !(isSubstr ("lead").toList (lower summ)) &&
         !(isSubstr ("senior").toList (lower summ)) then
        [⟨"Summary", some (summ.take 100 ++ ("...").toList),
          ("Emphasize leadership and senior-level experience in your summary").toList,
          "high", "This is a senior position requiring demonstrated leadership"⟩]
      else []
    | none =>
      [⟨"Summary", none,
        ("Add a professional summary highlighting your fit for this role").toList,
        "high", "A targeted summary helps immediately show your relevance"⟩]
  let suggA := sugg1 ++ sugg2 ++ sugg3
  let suggB :=
    addMetricsSugg suggA (resume.experience.find? (fun exp =>
      !(exp.bullets.any (fun b => reSearchB metricsBulletRE (lower b)))))
  let suggC := weakScanExps suggB resume.experience
  ⟨resume, suggC.take 10, missing_skills.take 10, skills_to_emphasize,
    required_missing ++ preferred_missing.take 5,
    round2 (tailorRawScore all_job_skills matching_skills)⟩

end JobKit

namespace JobKit

/-- `required_skills ++ preferred_skills` of a job analysis — the combined
skill list `analyze_resume_match` walks. -/
def allJobSkills (j : Str) : List Str :=
  (extract_keywords_from_job j).required_skills ++
  (extract_keywords_from_job j).preferred_skills

/-- Scenario C job posting (spec §8): python/aws required, kubernetes preferred. -/
def scenarioCJob : Str := ("Requirements: Python, AWS. Preferred: Kubernetes.").toList

/-- Scenario C resume: contains python, aws, react. -/
def scenarioCResume : Str := ("python, aws, react").toList

/-- Scenario A job posting (spec §8). -/
def scenarioAJob : Str := ("Requirements: Python, SQL. Preferred: AWS, Docker.").toList

/-- A job posting whose required span ("n/a") contains no skill while the
found skill `python` sits before the marker. -/
def defaultRuleJob : Str := ("python. requirements: n/a").toList

/-- A resume whose education section contains an institution line of 264
characters — longer than the 200-character schema limit on `school`. -/
def longEducationText : Str :=
  ("Education\nUniversity of ").toList ++ List.replicate 250 'A'

/-- An in-memory resume with two bullets that both start with weak phrases
and contain no metrics. -/
def weakVerbResume : StructuredResume :=
  ⟨none,
   [⟨("Acme").toList, ("Dev").toList, none, none, none,
     [("responsible for maintaining the legacy system").toList,
      ("worked on the billing team project").toList]⟩],
   [], [], [], [], none⟩

/-- A resume text none of whose lines is a recognizable section header. -/
def noHeaderText : Str := ("hello world\nfoo bar").toList

/-- A resume text whose only section header is a skills header. -/
def skillsOnlyText : Str := ("intro line\nSkills\npython and sql").toList

/-- Month names and abbreviations accepted by the first date pattern. -/
def monthStrings : List Str :=
  (["January", "Jan", "February", "Feb", "March", "Mar", "April", "Apr", "May",
    "June", "Jun", "July", "Jul", "August", "Aug", "September", "Sep",
    "October", "Oct", "November", "Nov", "December", "Dec"]).map String.toList

/-- `True` iff the parse raised (a pydantic `ValidationError`). -/
def isParseError (r : Except ValErr StructuredResume) : Bool :=
  match r with
  | .error _ => true
  | .ok _ => false

/-- Predicate picking out metric suggestions (by their fixed reason string). -/
def pMetrics : TailoredSuggestion → Bool := fun s => s.reason == reasonMetrics

end JobKit

namespace JobKit

theorem natDiv_unit (c t : ℕ) (h : c ≤ t) : 0 ≤ (c : ℚ) / (t : ℚ) ∧ (c : ℚ) / (t : ℚ) ≤ 1 := by
  rcases Nat.eq_zero_or_pos t with ht | ht
  · subst ht
    have : c = 0 := Nat.le_zero.mp h
    subst this
    norm_num
  · constructor
    · positivity
    · rw [div_le_one (by exact_mod_cast ht)]
      exact_mod_cast h

theorem roundHalfEven_bounds {q : ℚ} (h0 : 0 ≤ q) (h1 : q ≤ 100) :
    0 ≤ roundHalfEven q ∧ roundHalfEven q ≤ 100 := by
  unfold roundHalfEven
  dsimp only
  have hf0 : 0 ≤ ⌊q⌋ := Int.le_floor.mpr (by exact_mod_cast h0)
  have hfq : (⌊q⌋ : ℚ) ≤ q := Int.floor_le q
  have hf100 : ⌊q⌋ ≤ 100 := by
    calc ⌊q⌋ ≤ ⌊(100 : ℚ)⌋ := Int.floor_le_floor h1
    _ = 100 := by norm_num
  split
  · exact ⟨hf0, hf100⟩
  · have hr : ¬(q - ⌊q⌋ < 1 / 2) := by assumption
    push_neg at hr
    have hq : (⌊q⌋ : ℚ) < 100 := by linarith
    have hlt : ⌊q⌋ < 100 := by exact_mod_cast hq
    constructor
    · split
      · omega
      · split <;> omega
    · split
      · omega
      · split <;> omega

theorem round2_unit {q : ℚ} (h0 : 0 ≤ q) (h1 : q ≤ 1) :
    0 ≤ round2 q ∧ round2 q ≤ 1 := by
  unfold round2
  obtain ⟨b0, b1⟩ := roundHalfEven_bounds (q := q * 100) (by linarith) (by linarith)
  constructor
  · have : (0 : ℚ) ≤ (roundHalfEven (q * 100) : ℚ) := by exact_mod_cast b0
    positivity
  · rw [div_le_one (by norm_num)]
    exact_mod_cast b1

theorem rawScore_unit (ja : JobAnalysis) (rl : Str) :
    0 ≤ rawScore ja rl ∧ rawScore ja rl ≤ 1 := by
  unfold rawScore
  dsimp only
  split
  · have ha := natDiv_unit (ja.required_skills.filter
      (fun s => s ∈ matchingSkillsOf (ja.required_skills ++ ja.preferred_skills) rl)).length
      ja.required_skills.length (List.length_filter_le _ _)
    have hb := natDiv_unit (ja.preferred_skills.filter
      (fun s => s ∈ matchingSkillsOf (ja.required_skills ++ ja.preferred_skills) rl)).length
      ja.preferred_skills.length (List.length_filter_le _ _)
    constructor
    · apply add_nonneg <;> apply mul_nonneg
      · split
        · exact ha.1
        · norm_num
      · norm_num
      · split
        · exact hb.1
        · norm_num
      · norm_num
    · have h1 : (if (ja.required_skills.length : ℚ) > 0 then
          ((ja.required_skills.filter (fun s => s ∈ matchingSkillsOf
            (ja.required_skills ++ ja.preferred_skills) rl)).length : ℚ) /
            (ja.required_skills.length : ℚ) else 1 / 2) ≤ 1 := by
        split
        · exact ha.2
        · norm_num
      have h2 : (if (ja.preferred_skills.length : ℚ) > 0 then
          ((ja.preferred_skills.filter (fun s => s ∈ matchingSkillsOf
            (ja.required_skills ++ ja.preferred_skills) rl)).length : ℚ) /
            (ja.preferred_skills.length : ℚ) else 1 / 2) ≤ 1 := by
        split
        · exact hb.2
        · norm_num
      nlinarith [h1, h2]
  · norm_num

theorem tailor_score_unit (all : List Str) (p : Str → Bool) :
    0 ≤ round2 (tailorRawScore all (all.filter p)) ∧
    round2 (tailorRawScore all (all.filter p)) ≤ 1 := by
  have h := natDiv_unit (all.filter p).length all.length (List.length_filter_le _ _)
  unfold tailorRawScore
  split
  · exact round2_unit h.1 h.2
  · exact round2_unit (by norm_num) (by norm_num)

theorem rawScore_formula (ja : JobAnalysis) (rl : Str) :
    rawScore ja rl =
      (if ja.required_skills.length = 0 then 1 / 2
       else ((ja.required_skills.filter (fun s => wwSearch s rl)).length : ℚ) /
         (ja.required_skills.length : ℚ)) * (7 / 10) +
      (if ja.preferred_skills.length = 0 then 1 / 2
       else ((ja.preferred_skills.filter (fun s => wwSearch s rl)).length : ℚ) /
         (ja.preferred_skills.length : ℚ)) * (3 / 10) := by
  unfold rawScore
  dsimp only
  have hreq : ja.required_skills.filter
      (fun s => s ∈ matchingSkillsOf (ja.required_skills ++ ja.preferred_skills) rl) =
      ja.required_skills.filter (fun s => wwSearch s rl) := by
    apply List.filter_congr
    intro s hs
    simp [matchingSkillsOf, List.mem_filter, List.mem_append, hs]
  have hpref : ja.preferred_skills.filter
      (fun s => s ∈ matchingSkillsOf (ja.required_skills ++ ja.preferred_skills) rl) =
      ja.preferred_skills.filter (fun s => wwSearch s rl) := by
    apply List.filter_congr
    intro s hs
    simp [matchingSkillsOf, List.mem_filter, List.mem_append, hs]
  rw [hreq, hpref]
  have e1 : ((ja.required_skills.length : ℚ) > 0) ↔ ¬(ja.required_skills.length = 0) := by
    rw [gt_iff_lt, Nat.cast_pos]
    exact Nat.pos_iff_ne_zero
  have e2 : ((ja.preferred_skills.length : ℚ) > 0) ↔ ¬(ja.preferred_skills.length = 0) := by
    rw [gt_iff_lt, Nat.cast_pos]
    exact Nat.pos_iff_ne_zero
  rw [if_congr e1 rfl rfl, if_congr e2 rfl rfl, ite_not, ite_not]
  by_cases houter : (ja.required_skills.length : ℚ) + (ja.preferred_skills.length : ℚ) > 0
  · rw [if_pos houter]
  · rw [if_neg houter]
    push_neg at houter
    have c1 := Nat.cast_nonneg (α := ℚ) ja.required_skills.length
    have c2 := Nat.cast_nonneg (α := ℚ) ja.preferred_skills.length
    have hr : ja.required_skills.length = 0 := by
      have h : (ja.required_skills.length : ℚ) = 0 := by linarith
      exact_mod_cast h
    have hp : ja.preferred_skills.length = 0 := by
      have h : (ja.preferred_skills.length : ℚ) = 0 := by linarith
      exact_mod_cast h
    rw [if_pos hr, if_pos hp]
    norm_num

end JobKit

namespace JobKit

set_option maxRecDepth 100000 in
/-- C1: for all non-empty resume and job texts, `analyze_resume_match` returns
`round(0.7·(required_matched/required_total, 0.5 when required_total = 0) +
0.3·(preferred_matched/preferred_total, 0.5 when preferred_total = 0), 2)`
(when both totals are zero both substitutions apply and the value is 0.5);
and on Scenario C — resume `python, aws, react` against a job requiring
python/aws with kubernetes preferred — matching ⊇ {python, aws},
missing ⊇ {kubernetes}, and the score is 0.70. -/
theorem C1_weighted_score_and_scenario :
    (∀ r j : Str, r ≠ [] → j ≠ [] →
      (analyze_resume_match r j).match_score =
        round2 ((if (extract_keywords_from_job j).required_skills.length = 0 then 1 / 2
          else (((extract_keywords_from_job j).required_skills.filter
              (fun s => wwSearch s (lower r))).length : ℚ) /
            ((extract_keywords_from_job j).required_skills.length : ℚ)) * (7 / 10) +
          (if (extract_keywords_from_job j).preferred_skills.length = 0 then 1 / 2
          else (((extract_keywords_from_job j).preferred_skills.filter
              (fun s => wwSearch s (lower r))).length : ℚ) /
            ((extract_keywords_from_job j).preferred_skills.length : ℚ)) * (3 / 10))) ∧
    ("python").toList ∈ (analyze_resume_match scenarioCResume scenarioCJob).matching_skills ∧
    ("aws").toList ∈ (analyze_resume_match scenarioCResume scenarioCJob).matching_skills ∧
    ("kubernetes").toList ∈ (analyze_resume_match scenarioCResume scenarioCJob).missing_skills ∧
    (analyze_resume_match scenarioCResume scenarioCJob).match_score = 7 / 10 := by
  have hgen : ∀ r j : Str, r ≠ [] → j ≠ [] →
      (analyze_resume_match r j).match_score =
        round2 ((if (extract_keywords_from_job j).required_skills.length = 0 then 1 / 2
          else (((extract_keywords_from_job j).required_skills.filter
              (fun s => wwSearch s (lower r))).length : ℚ) /
            ((extract_keywords_from_job j).required_skills.length : ℚ)) * (7 / 10) +
          (if (extract_keywords_from_job j).preferred_skills.length = 0 then 1 / 2
          else (((extract_keywords_from_job j).preferred_skills.filter
              (fun s => wwSearch s (lower r))).length : ℚ) /
            ((extract_keywords_from_job j).preferred_skills.length : ℚ)) * (3 / 10)) := by
    intro r j hr hj
    unfold analyze_resume_match
    rw [if_neg (by simp [hr, hj])]
    show round2 (rawScore (extract_keywords_from_job j) (lower r)) = _
    rw [rawScore_formula]
  refine ⟨hgen, by decide, by decide, by decide, ?_⟩
  rw [hgen _ _ (by decide) (by decide)]
  have e1 : (extract_keywords_from_job scenarioCJob).required_skills =
      [("python").toList, ("aws").toList] := by decide
  have e2 : (extract_keywords_from_job scenarioCJob).preferred_skills =
      [("kubernetes").toList] := by decide
  rw [e1, e2]
  have e3 : [("python").toList, ("aws").toList].filter
      (fun s => wwSearch s (lower scenarioCResume)) =
      [("python").toList, ("aws").toList] := by decide
  have e4 : [("kubernetes").toList].filter
      (fun s => wwSearch s (lower scenarioCResume)) = [] := by decide
  rw [e3, e4]
  norm_num
  unfold round2 roundHalfEven
  norm_num

set_option maxRecDepth 100000 in
theorem C1_witness :
    scenarioCResume ≠ [] ∧ scenarioCJob ≠ [] ∧
    (analyze_resume_match scenarioCResume scenarioCJob).match_score =
      round2 ((if (extract_keywords_from_job scenarioCJob).required_skills.length = 0 then 1 / 2
        else (((extract_keywords_from_job scenarioCJob).required_skills.filter
            (fun s => wwSearch s (lower scenarioCResume))).length : ℚ) /
          ((extract_keywords_from_job scenarioCJob).required_skills.length : ℚ)) * (7 / 10) +
        (if (extract_keywords_from_job scenarioCJob).preferred_skills.length = 0 then 1 / 2
        else (((extract_keywords_from_job scenarioCJob).preferred_skills.filter
            (fun s => wwSearch s (lower scenarioCResume))).length : ℚ) /
          ((extract_keywords_from_job scenarioCJob).preferred_skills.length : ℚ)) * (3 / 10)) :=
  ⟨by decide, by decide,
    C1_weighted_score_and_scenario.1 scenarioCResume scenarioCJob (by decide) (by decide)⟩

/-- C4: every `match_score` returned by `analyze_resume_match` lies in
[0, 1], and so does every `match_score` returned by `tailor_resume_for_job`. -/
theorem C4_scores_in_unit_interval :
    (∀ r j : Str, 0 ≤ (analyze_resume_match r j).match_score ∧
      (analyze_resume_match r j).match_score ≤ 1) ∧
    (∀ (res : StructuredResume) (jd : Str),
      0 ≤ (tailor_resume_for_job res jd).match_score ∧
      (tailor_resume_for_job res jd).match_score ≤ 1) := by
  constructor
  · intro r j
    by_cases h : r = [] ∨ j = []
    · unfold analyze_resume_match
      rw [if_pos h]
      exact ⟨le_rfl, by norm_num⟩
    · unfold analyze_resume_match
      rw [if_neg h]
      exact round2_unit (rawScore_unit _ _).1 (rawScore_unit _ _).2
  · intro res jd
    unfold tailor_resume_for_job
    exact tailor_score_unit _ _

/-- C5 counterexample: on the empty job description the experience level is
the string "unknown", which is none of entry-level / mid-level / senior, so
the claim fails as stated (it explicitly includes the empty string). -/
theorem C5_counterexample :
    (extract_keywords_from_job []).experience_level = ("unknown").toList ∧
    ("unknown").toList ∉
      [("entry-level").toList, ("mid-level").toList, ("senior").toList] := by
  constructor
  · rfl
  · decide

/-- C5 as amended: for every *non-empty* job description the experience level
is one of entry-level / mid-level / senior (the empty string yields
"unknown"). -/
theorem C5_level_amended (jd : Str) (hj : jd ≠ []) :
    (extract_keywords_from_job jd).experience_level ∈
      [("entry-level").toList, ("mid-level").toList, ("senior").toList] := by
  unfold extract_keywords_from_job
  rw [if_neg hj]
  show experienceLevelOf (lower jd) ∈ _
  unfold experienceLevelOf
  split
  · simp
  · split
    · simp
    · split
      · simp
      · split <;> simp

set_option maxRecDepth 100000 in
theorem C5_witness :
    scenarioAJob ≠ [] ∧
    (extract_keywords_from_job scenarioAJob).experience_level ∈
      [("entry-level").toList, ("mid-level").toList, ("senior").toList] :=
  ⟨by decide, C5_level_amended scenarioAJob (by decide)⟩

set_option maxRecDepth 100000 in
/-- C6 counterexample: the delimiter-split phase of `_extract_skills` keeps
both "Python" and "python" (only the exact-duplicate `list(set(..))` dedup is
applied to it), so the skill list is *not* deduplicated case-insensitively. -/
theorem C6_counterexample :
    ("Python").toList ∈ extract_skills ("Python, python").toList ∧
    ("python").toList ∈ extract_skills ("Python, python").toList ∧
    ("Python").toList ≠ ("python").toList ∧
    lower ("Python").toList = lower ("python").toList :=
  ⟨by decide, by decide, by decide, by decide⟩

/-- C6 as amended: the skills list contains no two *identical* entries (exact
deduplication; only the taxonomy-recovered additions are checked
case-insensitively against earlier entries) and is capped at 50. -/
theorem C6_skills_nodup_capped (text : Str) :
    (extract_skills text).Nodup ∧ (extract_skills text).length ≤ 50 := by
  unfold extract_skills
  dsimp only
  constructor
  · exact List.Nodup.sublist (List.take_sublist _ _) (List.nodup_dedup _)
  · exact List.length_take_le _ _

end JobKit

namespace JobKit

/-- C10: for non-empty inputs, `matching_skills` and `missing_skills` exactly
partition the job analysis's `required_skills ++ preferred_skills`: a string
is in the combined list iff it is in exactly one of the two outputs, both
outputs preserve the source order (sublists), and multiplicities add up. -/
theorem C10_partition (r j : Str) (hr : r ≠ []) (hj : j ≠ []) :
    (∀ s, s ∈ allJobSkills j ↔
      (s ∈ (analyze_resume_match r j).matching_skills ∨
       s ∈ (analyze_resume_match r j).missing_skills)) ∧
    (∀ s, ¬(s ∈ (analyze_resume_match r j).matching_skills ∧
       s ∈ (analyze_resume_match r j).missing_skills)) ∧
    (analyze_resume_match r j).matching_skills.Sublist (allJobSkills j) ∧
    (analyze_resume_match r j).missing_skills.Sublist (allJobSkills j) ∧
    (∀ s, (allJobSkills j).count s =
      (analyze_resume_match r j).matching_skills.count s +
      (analyze_resume_match r j).missing_skills.count s) := by
  have hcond : ¬(r = [] ∨ j = []) := by simp [hr, hj]
  have hm : (analyze_resume_match r j).matching_skills =
      (allJobSkills j).filter (fun sk => wwSearch sk (lower r)) := by
    unfold analyze_resume_match
    rw [if_neg hcond]
    rfl
  have hmiss : (analyze_resume_match r j).missing_skills =
      (allJobSkills j).filter (fun sk => !(wwSearch sk (lower r))) := by
    unfold analyze_resume_match
    rw [if_neg hcond]
    rfl
  refine ⟨?_, ?_, ?_, ?_, ?_⟩
  · intro s
    by_cases hw : wwSearch s (lower r) = true
    · simp [hm, hmiss, List.mem_filter, hw]
    · simp only [Bool.not_eq_true] at hw
      simp [hm, hmiss, List.mem_filter, hw]
  · intro s
    rintro ⟨h1, h2⟩
    rw [hm, List.mem_filter] at h1
    rw [hmiss, List.mem_filter] at h2
    rw [h1.2] at h2
    simp at h2
  · rw [hm]
    exact List.filter_sublist _
  · rw [hmiss]
    exact List.filter_sublist _
  · intro s
    rw [hm, hmiss]
    by_cases hw : wwSearch s (lower r) = true
    · have h1 : (allJobSkills j).count s =
          ((allJobSkills j).filter (fun sk => wwSearch sk (lower r))).count s :=
        (List.count_filter (by simpa using hw)).symm
      have h2 : ((allJobSkills j).filter (fun sk => !(wwSearch sk (lower r)))).count s = 0 := by
        rw [List.count_eq_zero]
        intro hmem
        rw [List.mem_filter, hw] at hmem
        simp at hmem
      omega
    · simp only [Bool.not_eq_true] at hw
      have h1 : (allJobSkills j).count s =
          ((allJobSkills j).filter (fun sk => !(wwSearch sk (lower r)))).count s :=
        (List.count_filter (by simp [hw])).symm
      have h2 : ((allJobSkills j).filter (fun sk => wwSearch sk (lower r))).count s = 0 := by
        rw [List.count_eq_zero]
        intro hmem
        rw [List.mem_filter, hw] at hmem
        simp at hmem
      omega

theorem C10_witness :
    scenarioCResume ≠ [] ∧ scenarioAJob ≠ [] ∧
    ((∀ s, s ∈ allJobSkills scenarioAJob ↔
      (s ∈ (analyze_resume_match scenarioCResume scenarioAJob).matching_skills ∨
       s ∈ (analyze_resume_match scenarioCResume scenarioAJob).missing_skills)) ∧
    (∀ s, ¬(s ∈ (analyze_resume_match scenarioCResume scenarioAJob).matching_skills ∧
       s ∈ (analyze_resume_match scenarioCResume scenarioAJob).missing_skills)) ∧
    (analyze_resume_match scenarioCResume scenarioAJob).matching_skills.Sublist
      (allJobSkills scenarioAJob) ∧
    (analyze_resume_match scenarioCResume scenarioAJob).missing_skills.Sublist
      (allJobSkills scenarioAJob) ∧
    (∀ s, (allJobSkills scenarioAJob).count s =
      (analyze_resume_match scenarioCResume scenarioAJob).matching_skills.count s +
      (analyze_resume_match scenarioCResume scenarioAJob).missing_skills.count s)) :=
  ⟨by decide, by decide,
    C10_partition scenarioCResume scenarioAJob (by decide) (by decide)⟩

end JobKit

namespace JobKit

theorem addRemaining_cons (req pref : List Str) (a : Str) (t : List Str) :
    addRemaining req pref (a :: t) =
      if a ∈ req ∨ a ∈ pref then addRemaining req pref t
      else addRemaining req (pref ++ [a]) t := rfl

theorem addRemaining_mem (req : List Str) (l : List Str) :
    ∀ (pref : List Str) (x : Str),
      x ∈ addRemaining req pref l ↔ x ∈ pref ∨ (x ∈ l ∧ x ∉ req) := by
  induction l with
  | nil => intro pref x; simp [addRemaining]
  | cons a t ih =>
    intro pref x
    rw [addRemaining_cons]
    by_cases h : a ∈ req ∨ a ∈ pref
    · rw [if_pos h, ih]
      constructor
      · rintro (hp | ⟨ht, hn⟩)
        · exact Or.inl hp
        · exact Or.inr ⟨List.mem_cons_of_mem _ ht, hn⟩
      · rintro (hp | ⟨hat, hn⟩)
        · exact Or.inl hp
        · rcases List.mem_cons.mp hat with rfl | ht
          · rcases h with hr | hpf
            · exact absurd hr hn
            · exact Or.inl hpf
          · exact Or.inr ⟨ht, hn⟩
    · rw [if_neg h, ih]
      push_neg at h
      constructor
      · rintro (hp | ⟨ht, hn⟩)
        · rcases List.mem_append.mp hp with hp | ha
          · exact Or.inl hp
          · rcases List.mem_singleton.mp ha with rfl
            exact Or.inr ⟨List.mem_cons_self _ _, h.1⟩
        · exact Or.inr ⟨List.mem_cons_of_mem _ ht, hn⟩
      · rintro (hp | ⟨hat, hn⟩)
        · exact Or.inl (List.mem_append.mpr (Or.inl hp))
        · rcases List.mem_cons.mp hat with rfl | ht
          · exact Or.inl (List.mem_append.mpr (Or.inr (List.mem_singleton.mpr rfl)))
          · exact Or.inr ⟨ht, hn⟩

theorem requiredFrom_subset (found : List Str) (rt : Option Str) (x : Str)
    (hx : x ∈ requiredFrom found rt) : x ∈ found := by
  unfold requiredFrom at hx
  rcases rt with _ | t
  · simp at hx
  · exact (List.mem_filter.mp hx).1

theorem preferredFrom_subset (found req : List Str) (pt : Option Str) (x : Str)
    (hx : x ∈ preferredFrom found req pt) : x ∈ found ∧ x ∉ req := by
  unfold preferredFrom at hx
  rcases pt with _ | t
  · simp at hx
  · obtain ⟨hf, hc⟩ := List.mem_filter.mp hx
    simp at hc
    exact ⟨hf, hc.2⟩

set_option maxRecDepth 400000 in
/-- C2 counterexample: on `"python. requirements: n/a"` the required span is
present (it is `"n/a"`), no preferred span exists, and the found skill
`python` lies in neither span — yet the code classifies it as *required*
(the default fires whenever no skill landed in either span, not only when
neither span is present), and `preferred_skills` stays empty, contradicting
the claimed "any found skill not yet classified by either span is added to
preferred". -/
theorem C2_counterexample :
    requiredSectionText (lower defaultRuleJob) = some (("n/a").toList) ∧
    preferredSectionText (lower defaultRuleJob) = none ∧
    ("python").toList ∈ ALL_SKILLS ∧
    wwSearch ("python").toList (lower defaultRuleJob) = true ∧
    isSubstr ("python").toList (("n/a").toList) = false ∧
    ("python").toList ∈ (extract_keywords_from_job defaultRuleJob).required_skills ∧
    (extract_keywords_from_job defaultRuleJob).preferred_skills = [] :=
  ⟨by decide, by decide, by decide, by decide, by decide, by decide, by decide⟩

set_option maxRecDepth 400000 in
/-- C2 as amended: a found skill inside the required span becomes required; if
*no found skill lies in either span* (in particular when neither span is
present) all found skills default to required and preferred stays empty;
otherwise the preferred list consists exactly of the found skills outside the
required-span classification.  Scenario A behaves as claimed:
`"Requirements: Python, SQL. Preferred: AWS, Docker."` yields
required = {python, sql} and preferred = {aws, docker}. -/
theorem C2_classification_amended :
    (∀ jd : Str, jd ≠ [] → ∀ s : Str,
      (s ∈ (extract_keywords_from_job jd).required_skills ↔
        (s ∈ foundSkills (lower jd) ∧
          (s ∈ requiredFrom (foundSkills (lower jd)) (requiredSectionText (lower jd)) ∨
           (requiredFrom (foundSkills (lower jd)) (requiredSectionText (lower jd)) = [] ∧
            preferredFrom (foundSkills (lower jd))
              (requiredFrom (foundSkills (lower jd)) (requiredSectionText (lower jd)))
              (preferredSectionText (lower jd)) = [])))) ∧
      (s ∈ (extract_keywords_from_job jd).preferred_skills ↔
        (¬(requiredFrom (foundSkills (lower jd)) (requiredSectionText (lower jd)) = [] ∧
            preferredFrom (foundSkills (lower jd))
              (requiredFrom (foundSkills (lower jd)) (requiredSectionText (lower jd)))
              (preferredSectionText (lower jd)) = []) ∧
          s ∈ foundSkills (lower jd) ∧
          s ∉ requiredFrom (foundSkills (lower jd)) (requiredSectionText (lower jd))))) ∧
    ("python").toList ∈ (extract_keywords_from_job scenarioAJob).required_skills ∧
    ("sql").toList ∈ (extract_keywords_from_job scenarioAJob).required_skills ∧
    (extract_keywords_from_job scenarioAJob).required_skills.all
      (fun s => s == ("python").toList || s == ("sql").toList) = true ∧
    ("aws").toList ∈ (extract_keywords_from_job scenarioAJob).preferred_skills ∧
    ("docker").toList ∈ (extract_keywords_from_job scenarioAJob).preferred_skills ∧
    (extract_keywords_from_job scenarioAJob).preferred_skills.all
      (fun s => s == ("aws").toList || s == ("docker").toList) = true := by
  have hmain : ∀ jd : Str, jd ≠ [] → ∀ s : Str,
      (s ∈ (extract_keywords_from_job jd).required_skills ↔
        (s ∈ foundSkills (lower jd) ∧
          (s ∈ requiredFrom (foundSkills (lower jd)) (requiredSectionText (lower jd)) ∨
           (requiredFrom (foundSkills (lower jd)) (requiredSectionText (lower jd)) = [] ∧
            preferredFrom (foundSkills (lower jd))
              (requiredFrom (foundSkills (lower jd)) (requiredSectionText (lower jd)))
              (preferredSectionText (lower jd)) = [])))) ∧
      (s ∈ (extract_keywords_from_job jd).preferred_skills ↔
        (¬(requiredFrom (foundSkills (lower jd)) (requiredSectionText (lower jd)) = [] ∧
            preferredFrom (foundSkills (lower jd))
              (requiredFrom (foundSkills (lower jd)) (requiredSectionText (lower jd)))
              (preferredSectionText (lower jd)) = []) ∧
          s ∈ foundSkills (lower jd) ∧
          s ∉ requiredFrom (foundSkills (lower jd)) (requiredSectionText (lower jd)))) := by
    intro jd hj s
    set found := foundSkills (lower jd) with hfound
    set R0 := requiredFrom found (requiredSectionText (lower jd)) with hR0
    set P0 := preferredFrom found R0 (preferredSectionText (lower jd)) with hP0
    have hq : (extract_keywords_from_job jd).required_skills =
        (if R0 = [] ∧ P0 = [] then found else R0).dedup := by
      unfold extract_keywords_from_job
      rw [if_neg hj]
    have hp : (extract_keywords_from_job jd).preferred_skills =
        (addRemaining (if R0 = [] ∧ P0 = [] then found else R0) P0 found).dedup := by
      unfold extract_keywords_from_job
      rw [if_neg hj]
    constructor
    · rw [hq, List.mem_dedup]
      by_cases hd : R0 = [] ∧ P0 = []
      · rw [if_pos hd]
        constructor
        · intro hf
          exact ⟨hf, Or.inr hd⟩
        · intro hf
          exact hf.1
      · rw [if_neg hd]
        constructor
        · intro hr
          exact ⟨requiredFrom_subset _ _ _ hr, Or.inl hr⟩
        · rintro ⟨hf, hr | habs⟩
          · exact hr
          · exact absurd habs hd
    · rw [hp, List.mem_dedup, addRemaining_mem]
      by_cases hd : R0 = [] ∧ P0 = []
      · rw [if_pos hd]
        constructor
        · rintro (hP | ⟨hf, hnf⟩)
          · rw [hd.2] at hP
            simp at hP
          · exact absurd hf hnf
        · rintro ⟨hnd, _, _⟩
          exact absurd hd hnd
      · rw [if_neg hd]
        constructor
        · rintro (hP | ⟨hf, hnr⟩)
          · obtain ⟨hf, hnr⟩ := preferredFrom_subset _ _ _ _ hP
            exact ⟨hd, hf, hnr⟩
          · exact ⟨hd, hf, hnr⟩
        · rintro ⟨_, hf, hnr⟩
          exact Or.inr ⟨hf, hnr⟩
  exact ⟨hmain, by decide, by decide, by decide, by decide, by decide, by decide⟩

set_option maxRecDepth 400000 in
theorem C2_witness :
    scenarioAJob ≠ [] ∧
    ((("python").toList ∈ (extract_keywords_from_job scenarioAJob).required_skills ↔
      (("python").toList ∈ foundSkills (lower scenarioAJob) ∧
        (("python").toList ∈ requiredFrom (foundSkills (lower scenarioAJob))
            (requiredSectionText (lower scenarioAJob)) ∨
         (requiredFrom (foundSkills (lower scenarioAJob))
            (requiredSectionText (lower scenarioAJob)) = [] ∧
          preferredFrom (foundSkills (lower scenarioAJob))
            (requiredFrom (foundSkills (lower scenarioAJob))
              (requiredSectionText (lower scenarioAJob)))
            (preferredSectionText (lower scenarioAJob)) = [])))) ∧
    (("python").toList ∈ (extract_keywords_from_job scenarioAJob).preferred_skills ↔
      (¬(requiredFrom (foundSkills (lower scenarioAJob))
            (requiredSectionText (lower scenarioAJob)) = [] ∧
          preferredFrom (foundSkills (lower scenarioAJob))
            (requiredFrom (foundSkills (lower scenarioAJob))
              (requiredSectionText (lower scenarioAJob)))
            (preferredSectionText (lower scenarioAJob)) = []) ∧
        ("python").toList ∈ foundSkills (lower scenarioAJob) ∧
        ("python").toList ∉ requiredFrom (foundSkills (lower scenarioAJob))
          (requiredSectionText (lower scenarioAJob))))) :=
  ⟨by decide, C2_classification_amended.1 scenarioAJob (by decide) (("python").toList)⟩

end JobKit

namespace JobKit

theorem weakScanBullets_countP (bs : List Str) :
    ∀ suggs : List TailoredSuggestion,
      (weakScanBullets suggs bs).countP pMetrics = suggs.countP pMetrics := by
  induction bs with
  | nil => intro suggs; rfl
  | cons b t ih =>
    intro suggs
    show (let s' := match weak_verbs.find? (fun w => isSubstr w (lower b)) with
      | some w => suggs ++ [weakBulletSugg b w]
      | none => suggs
      if s'.length > 10 then s' else weakScanBullets s' t).countP pMetrics = _
    rcases h : weak_verbs.find? (fun w => isSubstr w (lower b)) with _ | w
    · dsimp only
      split
      · rfl
      · rw [ih]
    · dsimp only
      have happ : (suggs ++ [weakBulletSugg b w]).countP pMetrics =
          suggs.countP pMetrics := by
        rw [List.countP_append]
        simp [pMetrics, weakBulletSugg, reasonWeak, reasonMetrics]
      split
      · exact happ
      · rw [ih, happ]

theorem weakScanExps_countP (exps : List ResumeExperience) :
    ∀ suggs : List TailoredSuggestion,
      (weakScanExps suggs exps).countP pMetrics = suggs.countP pMetrics := by
  induction exps with
  | nil => intro suggs; rfl
  | cons e t ih =>
    intro suggs
    show (let s' := weakScanBullets suggs e.bullets
      if s'.length > 10 then s' else weakScanExps s' t).countP pMetrics = _
    dsimp only
    split
    · exact weakScanBullets_countP _ _
    · rw [ih, weakScanBullets_countP]

theorem addMetricsSugg_countP (base : List TailoredSuggestion)
    (h : base.countP pMetrics = 0) (mexp : Option ResumeExperience) :
    (addMetricsSugg base mexp).countP pMetrics ≤ 1 := by
  rcases mexp with _ | exp
  · simp [addMetricsSugg, h]
  · unfold addMetricsSugg
    rw [List.countP_append, h]
    simp [pMetrics, metricsSugg]

theorem baseSuggs_countP (s1 s2 s3 : List TailoredSuggestion)
    (h1 : s1.countP pMetrics = 0) (h2 : s2.countP pMetrics = 0)
    (h3 : s3.countP pMetrics = 0) :
    (s1 ++ s2 ++ s3).countP pMetrics = 0 := by
  rw [List.countP_append, List.countP_append, h1, h2, h3]

set_option maxRecDepth 100000 in
/-- C9 counterexample: on a resume with one experience entry whose two bullets
each contain a weak phrase ("responsible for", "worked on"), the weak-verb
scan emits *two* suggestions — its `break` only leaves the inner phrase loop,
so it does not stop after the first hit across all entries. -/
theorem C9_counterexample :
    ((tailor_resume_for_job weakVerbResume []).suggestions.countP
      (fun s => s.reason == reasonWeak)) = 2 := by decide

/-- C9 as amended: the per-entry metric scan does stop after its first hit, so
the returned suggestions contain at most one metrics suggestion; the weak-verb
scan emits up to one suggestion per offending bullet and stops only once the
running total exceeds 10; the returned list is capped at 10. -/
theorem C9_scan_amended (resume : StructuredResume) (jd : Str) :
    ((tailor_resume_for_job resume jd).suggestions.countP
      (fun s => s.reason == reasonMetrics)) ≤ 1 ∧
    (tailor_resume_for_job resume jd).suggestions.length ≤ 10 := by
  unfold tailor_resume_for_job
  constructor
  · show (((weakScanExps (addMetricsSugg _ _) _).take 10).countP pMetrics) ≤ 1
    calc ((weakScanExps (addMetricsSugg _ _) _).take 10).countP pMetrics
        ≤ (weakScanExps (addMetricsSugg _ _) _).countP pMetrics :=
          List.Sublist.countP_le _ (List.take_sublist _ _)
      _ = (addMetricsSugg _ _).countP pMetrics := weakScanExps_countP _ _
      _ ≤ 1 := by
          apply addMetricsSugg_countP
          apply baseSuggs_countP
          · split <;> rfl
          · split <;> rfl
          · rcases resume.summary with _ | summ
            · rfl
            · dsimp only
              split <;> rfl
  · exact List.length_take_le _ _

end JobKit

namespace JobKit

theorem splitEachGo_ne_nil (f : Char → Bool) (s : Str) :
    ∀ acc, splitEachGo f s acc ≠ [] := by
  induction s with
  | nil => intro acc; simp [splitEachGo]
  | cons c cs ih =>
    intro acc
    unfold splitEachGo
    split
    · simp
    · exact ih _

theorem buildSections_all_none (lines : List Str)
    (h : ∀ l ∈ lines, detect_section l = none) :
    ∀ cs cur acc, buildSections lines cs cur acc =
      if cur ++ lines = [] then acc else upsert acc cs (cur ++ lines) := by
  induction lines with
  | nil =>
    intro cs cur acc
    rcases cur with _ | ⟨c, cur⟩ <;> simp [buildSections]
  | cons l t ih =>
    intro cs cur acc
    have hl : detect_section l = none := h l (List.mem_cons_self _ _)
    unfold buildSections
    rw [hl]
    rw [ih (fun x hx => h x (List.mem_cons_of_mem _ hx))]
    have e : cur ++ [l] ++ t = cur ++ l :: t := by simp
    rw [e]

/-- C7: when no line of the input is recognized as a section header, parsing
returns the all-empty structure with `summary = None` and `raw_text` equal to
the input. -/
theorem C7_no_headers (text : Str)
    (h : ∀ l ∈ splitNl text, detect_section l = none) :
    parse_resume_text text = .ok ⟨none, [], [], [], [], [], some text⟩ := by
  by_cases ht : text = []
  · subst ht
    rfl
  · unfold parse_resume_text
    rw [if_neg ht]
    have hs : buildSections (splitNl text) ("header") [] [] =
        [(("header"), splitNl text)] := by
      rw [buildSections_all_none (splitNl text) h]
      rw [if_neg (by simpa using splitEachGo_ne_nil (· = '\n') text [])]
      rfl
    simp only [hs]
    rfl

theorem C7_witness :
    (∀ l ∈ splitNl noHeaderText, detect_section l = none) ∧
    parse_resume_text noHeaderText =
      .ok ⟨none, [], [], [], [], [], some noHeaderText⟩ :=
  ⟨by decide, C7_no_headers noHeaderText (by decide)⟩

end JobKit

namespace JobKit

theorem secFind_map_ne (k : String) (v : List Str) (ty : String) (h : ty ≠ k) :
    ∀ acc : List (String × List Str),
      secFind (acc.map (fun p => if p.1 = k then (p.1, p.2 ++ v) else p)) ty =
      secFind acc ty := by
  intro acc
  induction acc with
  | nil => rfl
  | cons p t ih =>
    unfold secFind at ih ⊢
    rw [List.map_cons]
    by_cases hk : p.1 = k
    · have hp : decide (p.1 = ty) = false := by
        rw [hk]
        simp
        exact fun hh => h hh.symm
      rw [if_pos hk]
      simp only [List.find?_cons]
      rw [show (decide ((p.1, p.2 ++ v).1 = ty)) = false from hp]
      exact ih
    · rw [if_neg hk]
      rcases hp : decide (p.1 = ty) with _ | _
      · simp only [List.find?_cons, hp]
        exact ih
      · simp only [List.find?_cons, hp]

theorem secFind_append_ne (k : String) (v : List Str) (ty : String) (h : ty ≠ k) :
    ∀ acc : List (String × List Str),
      secFind (acc ++ [(k, v)]) ty = secFind acc ty := by
  intro acc
  induction acc with
  | nil =>
    unfold secFind
    have hp : decide ((k, v).1 = ty) = false := by
      simp
      exact fun hh => h hh.symm
    rw [List.nil_append]
    simp only [List.find?_cons, hp]
  | cons p t ih =>
    unfold secFind at ih ⊢
    rw [List.cons_append]
    rcases hp : decide (p.1 = ty) with _ | _
    · simp only [List.find?_cons, hp]
      exact ih
    · simp only [List.find?_cons, hp]

theorem secFind_upsert_ne (acc : List (String × List Str)) (k : String) (v : List Str)
    (ty : String) (h : ty ≠ k) : secFind (upsert acc k v) ty = secFind acc ty := by
  unfold upsert
  split
  · exact secFind_map_ne k v ty h acc
  · exact secFind_append_ne k v ty h acc

theorem buildSections_none_key (lines : List Str) (ty : String) :
    ∀ (cs : String) (cur : List Str) (acc : List (String × List Str)),
      (∀ l ∈ lines, detect_section l ≠ some ty) → ty ≠ cs →
      secFind acc ty = none →
      secFind (buildSections lines cs cur acc) ty = none := by
  induction lines with
  | nil =>
    intro cs cur acc _ hcs hacc
    unfold buildSections
    split
    · rw [secFind_upsert_ne _ _ _ _ hcs]
      exact hacc
    · exact hacc
  | cons l t ih =>
    intro cs cur acc h hcs hacc
    unfold buildSections
    rcases hd : detect_section l with _ | ty'
    · exact ih cs (cur ++ [l]) acc (fun x hx => h x (List.mem_cons_of_mem _ hx)) hcs hacc
    · have hne : ty ≠ ty' := by
        intro hh
        exact h l (List.mem_cons_self _ _) (by rw [hd, hh])
      apply ih ty' [] _ (fun x hx => h x (List.mem_cons_of_mem _ hx)) hne
      split
      · rw [secFind_upsert_ne _ _ _ _ hcs]
        exact hacc
      · exact hacc

set_option maxRecDepth 1000000 in
/-- C3 counterexample: `parse_resume_text` is *not* total — on a resume whose
education section holds a 264-character institution line, the extracted
`school` exceeds the schema's 200-character `max_length` and the pydantic
constructor raises a `ValidationError`, aborting the parse. -/
theorem C3_counterexample :
    isParseError (parse_resume_text longEducationText) = true := by decide

/-- C3 as amended: parsing never raises as long as no section holding
length-validated entries (experience / education / projects) is detected; in
general the only failure mode is a pydantic `ValidationError` from an
extracted field that violates the schema length constraints. -/
theorem C3_total_unless_validation (text : Str)
    (h : ∀ l ∈ splitNl text,
      detect_section l ≠ some ("experience") ∧
      detect_section l ≠ some ("education") ∧
      detect_section l ≠ some ("projects")) :
    ∃ r, parse_resume_text text = Except.ok r := by
  by_cases ht : text = []
  · subst ht
    exact ⟨_, rfl⟩
  · unfold parse_resume_text
    rw [if_neg ht]
    have hexp : secFind (buildSections (splitNl text) ("header") [] []) ("experience") = none :=
      buildSections_none_key _ _ _ _ _ (fun l hl => (h l hl).1) (by decide) rfl
    have hedu : secFind (buildSections (splitNl text) ("header") [] []) ("education") = none :=
      buildSections_none_key _ _ _ _ _ (fun l hl => (h l hl).2.1) (by decide) rfl
    have hproj : secFind (buildSections (splitNl text) ("header") [] []) ("projects") = none :=
      buildSections_none_key _ _ _ _ _ (fun l hl => (h l hl).2.2) (by decide) rfl
    simp only [hexp, hedu, hproj]
    rcases hsum : secFind (buildSections (splitNl text) ("header") [] []) ("summary")
        with _ | ls
    · simp only [hsum]
      exact ⟨_, rfl⟩
    · simp only [hsum]
      unfold mkStructuredResume chkOpt
      dsimp only
      have hlen : ¬(2000 < (List.take 2000
          (joinSp (splitWs (strip (List.intercalate ['\n'] ls))))).length) := by
        have := List.length_take_le 2000 (joinSp (splitWs (strip (List.intercalate ['\n'] ls))))
        omega
      rw [if_neg hlen]
      exact ⟨_, rfl⟩

theorem C3_witness :
    (∀ l ∈ splitNl skillsOnlyText,
      detect_section l ≠ some ("experience") ∧
      detect_section l ≠ some ("education") ∧
      detect_section l ≠ some ("projects")) ∧
    ∃ r, parse_resume_text skillsOnlyText = Except.ok r :=
  ⟨by decide, C3_total_unless_validation skillsOnlyText (by decide)⟩

end JobKit
namespace JobKit

theorem digit_not_space {c : Char} (h : c.isDigit = true) : isSpaceChar c = false := by
  rcases hsp : isSpaceChar c with _ | _
  · rfl
  · exfalso
    unfold isSpaceChar at hsp
    simp only [Bool.or_eq_true, decide_eq_true_eq] at hsp
    rcases hsp with ((((hc | hc) | hc) | hc) | hc) | hc <;> subst hc <;>
      exact absurd h (by decide)

theorem space_toLower {c : Char} (h : isSpaceChar c = true) : c.toLower = c := by
  unfold isSpaceChar at h
  simp only [Bool.or_eq_true, decide_eq_true_eq] at h
  rcases h with ((((hc | hc) | hc) | hc) | hc) | hc <;> subst hc <;> decide

theorem toLower_not_space {c x : Char} (h : c.toLower = x) (hx : isSpaceChar x = false) :
    isSpaceChar c = false := by
  rcases hc : isSpaceChar c with _ | _
  · rfl
  · rw [space_toLower hc] at h
    subst h
    rw [hc] at hx
    exact absurd hx (by simp)

theorem explode7 {e : Str} {c1 c2 c3 c4 c5 c6 c7 : Char}
    (h : lower e = [c1, c2, c3, c4, c5, c6, c7]) :
    ∃ a1 a2 a3 a4 a5 a6 a7, e = [a1, a2, a3, a4, a5, a6, a7] ∧
      a1.toLower = c1 ∧ a2.toLower = c2 ∧ a3.toLower = c3 ∧ a4.toLower = c4 ∧
      a5.toLower = c5 ∧ a6.toLower = c6 ∧ a7.toLower = c7 := by
  rcases e with _|⟨a1,_|⟨a2,_|⟨a3,_|⟨a4,_|⟨a5,_|⟨a6,_|⟨a7,_|⟨a8,t⟩⟩⟩⟩⟩⟩⟩⟩ <;>
    simp [lower] at h
  exact ⟨a1, a2, a3, a4, a5, a6, a7, rfl, h.1, h.2.1, h.2.2.1, h.2.2.2.1,
    h.2.2.2.2.1, h.2.2.2.2.2.1, h.2.2.2.2.2.2⟩

theorem explode3 {e : Str} {c1 c2 c3 : Char}
    (h : lower e = [c1, c2, c3]) :
    ∃ a1 a2 a3, e = [a1, a2, a3] ∧
      a1.toLower = c1 ∧ a2.toLower = c2 ∧ a3.toLower = c3 := by
  rcases e with _|⟨a1,_|⟨a2,_|⟨a3,_|⟨a4,t⟩⟩⟩⟩ <;> simp [lower] at h
  exact ⟨a1, a2, a3, rfl, h.1, h.2.1, h.2.2⟩

theorem run_seq_one {a b : RE} {p : Option Char} {s : Str} {ra : MRes} {l : List MRes}
    (h1 : run a p s = [ra]) (h2 : run b ra.prev ra.rest = l) :
    run (.seq a b) p s =
      l.map (fun rb => ⟨ra.cons ++ rb.cons, rb.prev, rb.rest, ra.caps ++ rb.caps⟩) := by
  simp [run, h1, h2]

set_option maxRecDepth 100000 in
set_option maxHeartbeats 2000000 in
theorem runG1_month {m : Str} (hm : m ∈ monthStrings) (p : Option Char)
    {d1 d2 d3 d4c : Char}
    (hd1 : isDigitChar d1 = true) (hd2 : isDigitChar d2 = true)
    (hd3 : isDigitChar d3 = true) (hd4 : isDigitChar d4c = true)
    (hs1 : isSpaceChar d1 = false) (r : Str) :
    run (.grp 1 (seqAll [monthRE, sp, d4])) p (m ++ ' ' :: d1 :: d2 :: d3 :: d4c :: r)
      = [⟨m ++ [' ', d1, d2, d3, d4c], some d4c, r,
          [(1, m ++ [' ', d1, d2, d3, d4c])]⟩] := by
  fin_cases hm <;>
    simp +decide [run, monthRE, sp, plusG, d4, seqAll, altAll, lowerEq, Function.comp,
      List.takeWhile, List.range_succ, List.range_zero, hd1, hd2, hd3, hd4, hs1]

end JobKit

namespace JobKit

theorem reFirstAux_pos {r : RE} {p : Option Char} {s : Str} {m : MRes} {l : List MRes}
    (h : run r p s = m :: l) : reFirstAux r p s = some m := by
  cases s <;> simp [reFirstAux, h]

set_option maxRecDepth 100000 in
theorem strip_month_year {m : Str} (hm : m ∈ monthStrings) {d1 d2 d3 d4c : Char}
    (h4 : isSpaceChar d4c = false) :
    strip (m ++ [' ', d1, d2, d3, d4c]) = m ++ [' ', d1, d2, d3, d4c] := by
  have hJ : isSpaceChar 'J' = false := by decide
  have hF : isSpaceChar 'F' = false := by decide
  have hM : isSpaceChar 'M' = false := by decide
  have hA : isSpaceChar 'A' = false := by decide
  have hS : isSpaceChar 'S' = false := by decide
  have hO : isSpaceChar 'O' = false := by decide
  have hN : isSpaceChar 'N' = false := by decide
  have hD : isSpaceChar 'D' = false := by decide
  fin_cases hm <;>
    simp +decide [strip, List.dropWhile, h4, hJ, hF, hM, hA, hS, hO, hN, hD]

set_option maxRecDepth 100000 in
set_option maxHeartbeats 1000000 in
theorem runTailPresent (p : Option Char) (a1 a2 a3 a4 a5 a6 a7 : Char)
    (t1 : a1.toLower = 'p') (t2 : a2.toLower = 'r') (t3 : a3.toLower = 'e')
    (t4 : a4.toLower = 's') (t5 : a5.toLower = 'e') (t6 : a6.toLower = 'n')
    (t7 : a7.toLower = 't') :
    run (.seq sps (.seq (plusG isSepChar) (.seq sps
          (.grp 2 (.alt presentRE (seqAll [monthRE, sp, d4]))))))
        p (' ' :: '-' :: ' ' :: a1 :: a2 :: a3 :: a4 :: a5 :: a6 :: a7 :: [])
      = [⟨[' ', '-', ' ', a1, a2, a3, a4, a5, a6, a7], some a7, [],
          [(2, [a1, a2, a3, a4, a5, a6, a7])]⟩] := by
  have ha1 : isSpaceChar a1 = false := toLower_not_space t1 (by decide)
  have hg1 : isSpaceChar ' ' = true := by decide
  have hg2 : isSpaceChar '-' = false := by decide
  have hg3 : isSepChar '-' = true := by decide
  have hg4 : isSepChar ' ' = false := by decide
  simp +decide [run, monthRE, sp, sps, plusG, d4, presentRE, seqAll, altAll, lowerEq,
    Function.comp, List.takeWhile, List.range_succ, List.range_zero,
    List.getLast?, Option.orElse,
    t1, t2, t3, t4, t5, t6, t7, ha1, hg1, hg2, hg3, hg4]

set_option maxRecDepth 100000 in
set_option maxHeartbeats 1000000 in
theorem runTailCurrent (p : Option Char) (a1 a2 a3 a4 a5 a6 a7 : Char)
    (t1 : a1.toLower = 'c') (t2 : a2.toLower = 'u') (t3 : a3.toLower = 'r')
    (t4 : a4.toLower = 'r') (t5 : a5.toLower = 'e') (t6 : a6.toLower = 'n')
    (t7 : a7.toLower = 't') :
    run (.seq sps (.seq (plusG isSepChar) (.seq sps
          (.grp 2 (.alt presentRE (seqAll [monthRE, sp, d4]))))))
        p (' ' :: '-' :: ' ' :: a1 :: a2 :: a3 :: a4 :: a5 :: a6 :: a7 :: [])
      = [⟨[' ', '-', ' ', a1, a2, a3, a4, a5, a6, a7], some a7, [],
          [(2, [a1, a2, a3, a4, a5, a6, a7])]⟩] := by
  have ha1 : isSpaceChar a1 = false := toLower_not_space t1 (by decide)
  have hg1 : isSpaceChar ' ' = true := by decide
  have hg2 : isSpaceChar '-' = false := by decide
  have hg3 : isSepChar '-' = true := by decide
  have hg4 : isSepChar ' ' = false := by decide
  simp +decide [run, monthRE, sp, sps, plusG, d4, presentRE, seqAll, altAll, lowerEq,
    Function.comp, List.takeWhile, List.range_succ, List.range_zero,
    List.getLast?, Option.orElse,
    t1, t2, t3, t4, t5, t6, t7, ha1, hg1, hg2, hg3, hg4]

set_option maxRecDepth 100000 in
set_option maxHeartbeats 1000000 in
theorem runTailNow (p : Option Char) (a1 a2 a3 : Char)
    (t1 : a1.toLower = 'n') (t2 : a2.toLower = 'o') (t3 : a3.toLower = 'w') :
    run (.seq sps (.seq (plusG isSepChar) (.seq sps
          (.grp 2 (.alt presentRE (seqAll [monthRE, sp, d4]))))))
        p (' ' :: '-' :: ' ' :: a1 :: a2 :: a3 :: [])
      = [⟨[' ', '-', ' ', a1, a2, a3], some a3, [],
          [(2, [a1, a2, a3])]⟩] := by
  have ha1 : isSpaceChar a1 = false := toLower_not_space t1 (by decide)
  have hg1 : isSpaceChar ' ' = true := by decide
  have hg2 : isSpaceChar '-' = false := by decide
  have hg3 : isSepChar '-' = true := by decide
  have hg4 : isSepChar ' ' = false := by decide
  simp +decide [run, monthRE, sp, sps, plusG, d4, presentRE, seqAll, altAll, lowerEq,
    Function.comp, List.takeWhile, List.range_succ, List.range_zero,
    List.getLast?, Option.orElse,
    t1, t2, t3, ha1, hg1, hg2, hg3, hg4]

end JobKit

namespace JobKit

set_option maxRecDepth 100000 in
set_option maxHeartbeats 2000000 in
/-- **C8.** For every string of the form `"Month YYYY - End"` — `Month` any of the
twelve month names or their three-letter abbreviations, `YYYY` four digits, and
`End` any letter-casing of `present`, `current` or `now` — `_parse_date_range`
returns `end_date` equal to the literal `"Present"` (and `start_date` equal to
the `"Month YYYY"` prefix). -/
theorem C8_present_normalized (m : Str) (hm : m ∈ monthStrings)
    (d1 d2 d3 d4c : Char)
    (h1 : d1.isDigit = true) (h2 : d2.isDigit = true)
    (h3 : d3.isDigit = true) (h4 : d4c.isDigit = true)
    (e : Str)
    (he : lower e = ("present").toList ∨ lower e = ("current").toList ∨
      lower e = ("now").toList) :
    parse_date_range (m ++ ' ' :: d1 :: d2 :: d3 :: d4c :: ' ' :: '-' :: ' ' :: e)
      = (some (m ++ [' ', d1, d2, d3, d4c]), some (("Present").toList)) := by
  have hs1 : isSpaceChar d1 = false := digit_not_space h1
  have hs4 : isSpaceChar d4c = false := digit_not_space h4
  have hd1 : isDigitChar d1 = true := h1
  have hd2 : isDigitChar d2 = true := h2
  have hd3 : isDigitChar d3 = true := h3
  have hd4 : isDigitChar d4c = true := h4
  have hstrip := @strip_month_year m hm d1 d2 d3 d4c hs4
  have hlitP : ("present").toList = ['p', 'r', 'e', 's', 'e', 'n', 't'] := rfl
  have hlitC : ("current").toList = ['c', 'u', 'r', 'r', 'e', 'n', 't'] := rfl
  have hlitN : ("now").toList = ['n', 'o', 'w'] := rfl
  rcases he with he | he | he
  · obtain ⟨a1, a2, a3, a4, a5, a6, a7, rfl, t1, t2, t3, t4, t5, t6, t7⟩ :=
      explode7 (hlitP ▸ he)
    have ha1 : isSpaceChar a1 = false := toLower_not_space t1 (by decide)
    have ha7 : isSpaceChar a7 = false := toLower_not_space t7 (by decide)
    have hstripe : strip [a1, a2, a3, a4, a5, a6, a7] = [a1, a2, a3, a4, a5, a6, a7] := by
      simp [strip, List.dropWhile, ha1, ha7]
    have hG1 := runG1_month hm none hd1 hd2 hd3 hd4 hs1
      (' ' :: '-' :: ' ' :: [a1, a2, a3, a4, a5, a6, a7])
    have hT := runTailPresent (some d4c) a1 a2 a3 a4 a5 a6 a7 t1 t2 t3 t4 t5 t6 t7
    have hP := run_seq_one hG1 hT
    simp only [List.map_cons, List.map_nil] at hP
    have hF := reFirstAux_pos hP
    simp only [seqAll] at hF
    simp +decide [parse_date_range, DATE_PATTERNS, seqAll, List.findSome?, reFirst, hF,
      capOf, List.find?, lower, hstrip, hstripe, hlitP, hlitC, hlitN,
      t1, t2, t3, t4, t5, t6, t7]
  · obtain ⟨a1, a2, a3, a4, a5, a6, a7, rfl, t1, t2, t3, t4, t5, t6, t7⟩ :=
      explode7 (hlitC ▸ he)
    have ha1 : isSpaceChar a1 = false := toLower_not_space t1 (by decide)
    have ha7 : isSpaceChar a7 = false := toLower_not_space t7 (by decide)
    have hstripe : strip [a1, a2, a3, a4, a5, a6, a7] = [a1, a2, a3, a4, a5, a6, a7] := by
      simp [strip, List.dropWhile, ha1, ha7]
    have hG1 := runG1_month hm none hd1 hd2 hd3 hd4 hs1
      (' ' :: '-' :: ' ' :: [a1, a2, a3, a4, a5, a6, a7])
    have hT := runTailCurrent (some d4c) a1 a2 a3 a4 a5 a6 a7 t1 t2 t3 t4 t5 t6 t7
    have hP := run_seq_one hG1 hT
    simp only [List.map_cons, List.map_nil] at hP
    have hF := reFirstAux_pos hP
    simp only [seqAll] at hF
    simp +decide [parse_date_range, DATE_PATTERNS, seqAll, List.findSome?, reFirst, hF,
      capOf, List.find?, lower, hstrip, hstripe, hlitP, hlitC, hlitN,
      t1, t2, t3, t4, t5, t6, t7]
  · obtain ⟨a1, a2, a3, rfl, t1, t2, t3⟩ := explode3 (hlitN ▸ he)
    have ha1 : isSpaceChar a1 = false := toLower_not_space t1 (by decide)
    have ha3 : isSpaceChar a3 = false := toLower_not_space t3 (by decide)
    have hstripe : strip [a1, a2, a3] = [a1, a2, a3] := by
      simp [strip, List.dropWhile, ha1, ha3]
    have hG1 := runG1_month hm none hd1 hd2 hd3 hd4 hs1 (' ' :: '-' :: ' ' :: [a1, a2, a3])
    have hT := runTailNow (some d4c) a1 a2 a3 t1 t2 t3
    have hP := run_seq_one hG1 hT
    simp only [List.map_cons, List.map_nil] at hP
    have hF := reFirstAux_pos hP
    simp only [seqAll] at hF
    simp +decide [parse_date_range, DATE_PATTERNS, seqAll, List.findSome?, reFirst, hF,
      capOf, List.find?, lower, hstrip, hstripe, hlitP, hlitC, hlitN, t1, t2, t3]

set_option maxRecDepth 1000000 in
/-- Witness for C8: `"Jan 2020 - PRESENT"` parses to
`(some "Jan 2020", some "Present")`. -/
theorem C8_witness :
    parse_date_range (("Jan 2020 - PRESENT").toList)
      = (some (("Jan 2020").toList), some (("Present").toList)) :=
  C8_present_normalized (("Jan").toList) (by decide) '2' '0' '2' '0'
    (by decide) (by decide) (by decide) (by decide) (("PRESENT").toList)
    (Or.inl (by decide))

end JobKit
